import Mathlib

/-!
Verification of the Salus iT600 gateway client (custom_components/salus).

This file shallowly embeds the parts of the source needed by the claims:
the AES-256-CBC/PKCS7 transport cipher with MD5-based key derivation
(encryptor.py), a JSON value model with Python-style dynamic field access
used by the per-category device decoders (gateway.py), the device records
(models.py), the constants (const.py), and the command methods.
-/

set_option linter.unusedVariables false

/-! ## Bytes -/

/-- A byte, as used for cipher payloads and key material. -/
abbrev Byte := Fin 256

theorem byte_xor_lt (a b : Byte) : a.val ^^^ b.val < 256 :=
  Nat.xor_lt_two_pow (n := 8) a.isLt b.isLt

/-- Bitwise xor on bytes. -/
def bxor (a b : Byte) : Byte := ⟨a.val ^^^ b.val, byte_xor_lt a b⟩

theorem bxor_assoc (a b c : Byte) : bxor (bxor a b) c = bxor a (bxor b c) := by
  apply Fin.ext
  exact Nat.xor_assoc a.val b.val c.val

theorem bxor_comm (a b : Byte) : bxor a b = bxor b a := by
  apply Fin.ext
  exact Nat.xor_comm a.val b.val

theorem bxor_left_comm (a b c : Byte) : bxor a (bxor b c) = bxor b (bxor a c) := by
  rw [← bxor_assoc, bxor_comm a b, bxor_assoc]

theorem bxor_zero (a : Byte) : bxor a 0 = a := by
  apply Fin.ext
  exact Nat.xor_zero a.val

theorem zero_bxor (a : Byte) : bxor 0 a = a := by
  rw [bxor_comm]
  exact bxor_zero a

theorem bxor_cancel (a k : Byte) : bxor (bxor a k) k = a := by
  apply Fin.ext
  exact Nat.xor_cancel_right k.val a.val

/-! ## AES primitives (the cipher behind `algorithms.AES` in encryptor.py) -/

/-- Multiplication by x in GF(2^8) with the AES reduction polynomial. -/
def xtime (a : Byte) : Byte :=
  ⟨(a.val * 2 % 256) ^^^ (if 128 ≤ a.val then 27 else 0),
   Nat.xor_lt_two_pow (n := 8) (Nat.mod_lt _ (by norm_num)) (by split <;> norm_num)⟩

theorem mul_two_mod_256 (x : Nat) (hx : x < 256) : x * 2 % 256 = x % 128 * 2 := by
  omega

theorem mod_128_xor (x y : Nat) : (x ^^^ y) % 128 = x % 128 ^^^ y % 128 := by
  have h : ∀ z : Nat, z % 128 = z &&& (2 ^ 7 - 1) := by
    intro z
    rw [Nat.and_pow_two_sub_one_eq_mod]
  rw [h, h, h, Nat.and_xor_distrib_right]

theorem xor_mul_two (u v : Nat) : (u ^^^ v) * 2 = u * 2 ^^^ v * 2 := by
  have h2 : ∀ z : Nat, z * 2 = z <<< 1 := by
    intro z
    rw [Nat.shiftLeft_eq, pow_one]
  rw [h2, h2, h2]
  apply Nat.eq_of_testBit_eq
  intro i
  simp only [Nat.testBit_shiftLeft, Nat.testBit_xor]
  cases hd : decide (1 ≤ i) <;> simp

theorem hi_bit_le (z : Nat) (hz : z < 256) : (128 ≤ z ↔ z.testBit 7 = true) := by
  rw [Nat.testBit_to_div_mod]
  rw [show (2 : Nat) ^ 7 = 128 from by norm_num]
  simp only [decide_eq_true_eq]
  constructor <;> intro h <;> omega

theorem hi_bit_xor (x y : Nat) (hx : x < 256) (hy : y < 256) :
    (128 ≤ (x ^^^ y)) ↔ ((128 ≤ x) ↔ ¬128 ≤ y) := by
  have hxy : x ^^^ y < 256 := Nat.xor_lt_two_pow (n := 8) hx hy
  rw [hi_bit_le _ hxy, hi_bit_le x hx, iff_not_comm, hi_bit_le y hy, Nat.testBit_xor]
  cases hb1 : x.testBit 7 <;> cases hb2 : y.testBit 7 <;> simp

theorem nat_xor_left_comm (x y z : Nat) : x ^^^ (y ^^^ z) = y ^^^ (x ^^^ z) := by
  rw [← Nat.xor_assoc, Nat.xor_comm x y, Nat.xor_assoc]

theorem xtime_linear (a b : Byte) : xtime (bxor a b) = bxor (xtime a) (xtime b) := by
  apply Fin.ext
  show ((a.val ^^^ b.val) * 2 % 256) ^^^ (if 128 ≤ a.val ^^^ b.val then 27 else 0) =
    ((a.val * 2 % 256) ^^^ (if 128 ≤ a.val then 27 else 0)) ^^^
      ((b.val * 2 % 256) ^^^ (if 128 ≤ b.val then 27 else 0))
  have hxy : a.val ^^^ b.val < 256 := Nat.xor_lt_two_pow (n := 8) a.isLt b.isLt
  rw [mul_two_mod_256 _ hxy, mul_two_mod_256 _ a.isLt, mul_two_mod_256 _ b.isLt,
    mod_128_xor, xor_mul_two]
  have hbits := hi_bit_xor a.val b.val a.isLt b.isLt
  by_cases ha : 128 ≤ a.val <;> by_cases hb : 128 ≤ b.val
  · have hxor : ¬128 ≤ a.val ^^^ b.val := by rw [hbits]; simp [ha, hb]
    rw [if_neg hxor, if_pos ha, if_pos hb]
    simp [Nat.xor_assoc, Nat.xor_comm, nat_xor_left_comm, Nat.xor_self, Nat.xor_zero, Nat.xor_cancel_left]
  · have hxor : 128 ≤ a.val ^^^ b.val := by rw [hbits]; simp [ha, hb]
    rw [if_pos hxor, if_pos ha, if_neg hb]
    simp [Nat.xor_assoc, Nat.xor_comm, nat_xor_left_comm, Nat.xor_self, Nat.xor_zero, Nat.xor_cancel_left]
  · have hxor : 128 ≤ a.val ^^^ b.val := by rw [hbits]; simp [ha, hb]
    rw [if_pos hxor, if_neg ha, if_pos hb]
    simp [Nat.xor_assoc, Nat.xor_comm, nat_xor_left_comm, Nat.xor_self, Nat.xor_zero, Nat.xor_cancel_left]
  · have hxor : ¬128 ≤ a.val ^^^ b.val := by rw [hbits]; simp [ha, hb]
    rw [if_neg hxor, if_neg ha, if_neg hb]
    simp [Nat.xor_assoc, Nat.xor_comm, nat_xor_left_comm, Nat.xor_self, Nat.xor_zero, Nat.xor_cancel_left]

/-! ## Python-style dynamic errors (exceptions caught by the decoders) -/

/-- The Python exception kinds that the gateway code can raise or catch. -/
inductive PyErr where
  | attributeError
  | keyError
  | typeError
  | valueError
  | indexError
  | jsonDecodeError
deriving DecidableEq, Repr

/-! ## AES S-boxes (FIPS-197 tables realized by the cryptography backend) -/

/-- The AES forward S-box. -/
def sboxTable : List Nat := [
  99, 124, 119, 123, 242, 107, 111, 197, 48, 1, 103, 43,
  254, 215, 171, 118, 202, 130, 201, 125, 250, 89, 71, 240,
  173, 212, 162, 175, 156, 164, 114, 192, 183, 253, 147, 38,
  54, 63, 247, 204, 52, 165, 229, 241, 113, 216, 49, 21,
  4, 199, 35, 195, 24, 150, 5, 154, 7, 18, 128, 226,
  235, 39, 178, 117, 9, 131, 44, 26, 27, 110, 90, 160,
  82, 59, 214, 179, 41, 227, 47, 132, 83, 209, 0, 237,
  32, 252, 177, 91, 106, 203, 190, 57, 74, 76, 88, 207,
  208, 239, 170, 251, 67, 77, 51, 133, 69, 249, 2, 127,
  80, 60, 159, 168, 81, 163, 64, 143, 146, 157, 56, 245,
  188, 182, 218, 33, 16, 255, 243, 210, 205, 12, 19, 236,
  95, 151, 68, 23, 196, 167, 126, 61, 100, 93, 25, 115,
  96, 129, 79, 220, 34, 42, 144, 136, 70, 238, 184, 20,
  222, 94, 11, 219, 224, 50, 58, 10, 73, 6, 36, 92,
  194, 211, 172, 98, 145, 149, 228, 121, 231, 200, 55, 109,
  141, 213, 78, 169, 108, 86, 244, 234, 101, 122, 174, 8,
  186, 120, 37, 46, 28, 166, 180, 198, 232, 221, 116, 31,
  75, 189, 139, 138, 112, 62, 181, 102, 72, 3, 246, 14,
  97, 53, 87, 185, 134, 193, 29, 158, 225, 248, 152, 17,
  105, 217, 142, 148, 155, 30, 135, 233, 206, 85, 40, 223,
  140, 161, 137, 13, 191, 230, 66, 104, 65, 153, 45, 15,
  176, 84, 187, 22]

/-- The AES inverse S-box. -/
def invSboxTable : List Nat := [
  82, 9, 106, 213, 48, 54, 165, 56, 191, 64, 163, 158,
  129, 243, 215, 251, 124, 227, 57, 130, 155, 47, 255, 135,
  52, 142, 67, 68, 196, 222, 233, 203, 84, 123, 148, 50,
  166, 194, 35, 61, 238, 76, 149, 11, 66, 250, 195, 78,
  8, 46, 161, 102, 40, 217, 36, 178, 118, 91, 162, 73,
  109, 139, 209, 37, 114, 248, 246, 100, 134, 104, 152, 22,
  212, 164, 92, 204, 93, 101, 182, 146, 108, 112, 72, 80,
  253, 237, 185, 218, 94, 21, 70, 87, 167, 141, 157, 132,
  144, 216, 171, 0, 140, 188, 211, 10, 247, 228, 88, 5,
  184, 179, 69, 6, 208, 44, 30, 143, 202, 63, 15, 2,
  193, 175, 189, 3, 1, 19, 138, 107, 58, 145, 17, 65,
  79, 103, 220, 234, 151, 242, 207, 206, 240, 180, 230, 115,
  150, 172, 116, 34, 231, 173, 53, 133, 226, 249, 55, 232,
  28, 117, 223, 110, 71, 241, 26, 113, 29, 41, 197, 137,
  111, 183, 98, 14, 170, 24, 190, 27, 252, 86, 62, 75,
  198, 210, 121, 32, 154, 219, 192, 254, 120, 205, 90, 244,
  31, 221, 168, 51, 136, 7, 199, 49, 177, 18, 16, 89,
  39, 128, 236, 95, 96, 81, 127, 169, 25, 181, 74, 13,
  45, 229, 122, 159, 147, 201, 156, 239, 160, 224, 59, 77,
  174, 42, 245, 176, 200, 235, 187, 60, 131, 83, 153, 97,
  23, 43, 4, 126, 186, 119, 214, 38, 225, 105, 20, 99,
  85, 33, 12, 125]

/-- Forward S-box lookup. -/
def sbox (a : Byte) : Byte := ⟨sboxTable.getD a.val 0 % 256, Nat.mod_lt _ (by norm_num)⟩

/-- Inverse S-box lookup. -/
def invSbox (a : Byte) : Byte := ⟨invSboxTable.getD a.val 0 % 256, Nat.mod_lt _ (by norm_num)⟩

set_option maxRecDepth 4000 in
theorem invSbox_sbox : ∀ a : Byte, invSbox (sbox a) = a := by decide

/-! ## AES state: a 16-byte block, column-major as in FIPS-197 -/

/-- One AES state column (also used as a key-schedule word). -/
structure Col where
  c0 : Byte
  c1 : Byte
  c2 : Byte
  c3 : Byte
deriving DecidableEq, Repr

/-- A 16-byte AES block; byte i of the data stream is field bi. -/
structure Block where
  b0 : Byte
  b1 : Byte
  b2 : Byte
  b3 : Byte
  b4 : Byte
  b5 : Byte
  b6 : Byte
  b7 : Byte
  b8 : Byte
  b9 : Byte
  b10 : Byte
  b11 : Byte
  b12 : Byte
  b13 : Byte
  b14 : Byte
  b15 : Byte
deriving DecidableEq, Repr

/-- Multiplication by 3 in GF(2^8). -/
def gm3 (a : Byte) : Byte := bxor (xtime a) a

/-- Multiplication by 9 in GF(2^8). -/
def gm9 (a : Byte) : Byte := bxor (xtime (xtime (xtime a))) a

/-- Multiplication by 11 in GF(2^8). -/
def gm11 (a : Byte) : Byte := bxor (bxor (xtime (xtime (xtime a))) (xtime a)) a

/-- Multiplication by 13 in GF(2^8). -/
def gm13 (a : Byte) : Byte := bxor (bxor (xtime (xtime (xtime a))) (xtime (xtime a))) a

/-- Multiplication by 14 in GF(2^8). -/
def gm14 (a : Byte) : Byte := bxor (bxor (xtime (xtime (xtime a))) (xtime (xtime a))) (xtime a)

theorem gm3_linear (a b : Byte) : gm3 (bxor a b) = bxor (gm3 a) (gm3 b) := by
  simp [gm3, xtime_linear, bxor_assoc, bxor_comm, bxor_left_comm]

theorem gm9_linear (a b : Byte) : gm9 (bxor a b) = bxor (gm9 a) (gm9 b) := by
  simp [gm9, xtime_linear, bxor_assoc, bxor_comm, bxor_left_comm]

theorem gm11_linear (a b : Byte) : gm11 (bxor a b) = bxor (gm11 a) (gm11 b) := by
  simp [gm11, xtime_linear, bxor_assoc, bxor_comm, bxor_left_comm]

theorem gm13_linear (a b : Byte) : gm13 (bxor a b) = bxor (gm13 a) (gm13 b) := by
  simp [gm13, xtime_linear, bxor_assoc, bxor_comm, bxor_left_comm]

theorem gm14_linear (a b : Byte) : gm14 (bxor a b) = bxor (gm14 a) (gm14 b) := by
  simp [gm14, xtime_linear, bxor_assoc, bxor_comm, bxor_left_comm]

/-- MixColumns on one column. -/
def mixCol (v : Col) : Col :=
  ⟨bxor (bxor (bxor (xtime v.c0) (gm3 v.c1)) v.c2) v.c3,
   bxor (bxor (bxor v.c0 (xtime v.c1)) (gm3 v.c2)) v.c3,
   bxor (bxor (bxor v.c0 v.c1) (xtime v.c2)) (gm3 v.c3),
   bxor (bxor (bxor (gm3 v.c0) v.c1) v.c2) (xtime v.c3)⟩

/-- InvMixColumns on one column. -/
def invMixCol (v : Col) : Col :=
  ⟨bxor (bxor (bxor (gm14 v.c0) (gm11 v.c1)) (gm13 v.c2)) (gm9 v.c3),
   bxor (bxor (bxor (gm9 v.c0) (gm14 v.c1)) (gm11 v.c2)) (gm13 v.c3),
   bxor (bxor (bxor (gm13 v.c0) (gm9 v.c1)) (gm14 v.c2)) (gm11 v.c3),
   bxor (bxor (bxor (gm11 v.c0) (gm13 v.c1)) (gm9 v.c2)) (gm14 v.c3)⟩

/-- Field-wise xor of two columns. -/
def colXor (x y : Col) : Col := ⟨bxor x.c0 y.c0, bxor x.c1 y.c1, bxor x.c2 y.c2, bxor x.c3 y.c3⟩

theorem xtime_zero : xtime 0 = 0 := by decide

theorem gm3_zero : gm3 0 = 0 := by decide

theorem gm9_zero : gm9 0 = 0 := by decide

theorem gm11_zero : gm11 0 = 0 := by decide

theorem gm13_zero : gm13 0 = 0 := by decide

theorem gm14_zero : gm14 0 = 0 := by decide

theorem mixCol_decomp (a b c d : Byte) :
    mixCol ⟨a, b, c, d⟩ =
      colXor (mixCol ⟨a, 0, 0, 0⟩)
        (colXor (mixCol ⟨0, b, 0, 0⟩) (colXor (mixCol ⟨0, 0, c, 0⟩) (mixCol ⟨0, 0, 0, d⟩))) := by
  simp [mixCol, colXor, xtime_zero, gm3_zero, bxor_zero, zero_bxor,
    bxor_assoc, bxor_comm, bxor_left_comm]

theorem invMixCol_linear (x y : Col) :
    invMixCol (colXor x y) = colXor (invMixCol x) (invMixCol y) := by
  cases x
  cases y
  simp [invMixCol, colXor, gm9_linear, gm11_linear, gm13_linear, gm14_linear,
    bxor_assoc, bxor_comm, bxor_left_comm]

set_option maxRecDepth 4000 in
theorem invMixCol_mixCol_unit0 : ∀ a : Byte, invMixCol (mixCol ⟨a, 0, 0, 0⟩) = ⟨a, 0, 0, 0⟩ := by
  decide

set_option maxRecDepth 4000 in
theorem invMixCol_mixCol_unit1 : ∀ a : Byte, invMixCol (mixCol ⟨0, a, 0, 0⟩) = ⟨0, a, 0, 0⟩ := by
  decide

set_option maxRecDepth 4000 in
theorem invMixCol_mixCol_unit2 : ∀ a : Byte, invMixCol (mixCol ⟨0, 0, a, 0⟩) = ⟨0, 0, a, 0⟩ := by
  decide

set_option maxRecDepth 4000 in
theorem invMixCol_mixCol_unit3 : ∀ a : Byte, invMixCol (mixCol ⟨0, 0, 0, a⟩) = ⟨0, 0, 0, a⟩ := by
  decide

theorem invMixCol_mixCol (v : Col) : invMixCol (mixCol v) = v := by
  obtain ⟨a, b, c, d⟩ := v
  rw [mixCol_decomp, invMixCol_linear, invMixCol_linear, invMixCol_linear,
    invMixCol_mixCol_unit0, invMixCol_mixCol_unit1, invMixCol_mixCol_unit2,
    invMixCol_mixCol_unit3]
  simp [colXor, bxor_zero, zero_bxor]

/-! ## AES block operations -/

/-- Apply the forward S-box to every state byte. -/
def subBytesB (s : Block) : Block :=
  ⟨sbox s.b0, sbox s.b1, sbox s.b2, sbox s.b3, sbox s.b4, sbox s.b5, sbox s.b6, sbox s.b7,
   sbox s.b8, sbox s.b9, sbox s.b10, sbox s.b11, sbox s.b12, sbox s.b13, sbox s.b14, sbox s.b15⟩

/-- Apply the inverse S-box to every state byte. -/
def invSubBytesB (s : Block) : Block :=
  ⟨invSbox s.b0, invSbox s.b1, invSbox s.b2, invSbox s.b3, invSbox s.b4, invSbox s.b5,
   invSbox s.b6, invSbox s.b7, invSbox s.b8, invSbox s.b9, invSbox s.b10, invSbox s.b11,
   invSbox s.b12, invSbox s.b13, invSbox s.b14, invSbox s.b15⟩

/-- ShiftRows on the column-major state. -/
def shiftRowsB (s : Block) : Block :=
  ⟨s.b0, s.b5, s.b10, s.b15, s.b4, s.b9, s.b14, s.b3,
   s.b8, s.b13, s.b2, s.b7, s.b12, s.b1, s.b6, s.b11⟩

/-- Inverse ShiftRows. -/
def invShiftRowsB (s : Block) : Block :=
  ⟨s.b0, s.b13, s.b10, s.b7, s.b4, s.b1, s.b14, s.b11,
   s.b8, s.b5, s.b2, s.b15, s.b12, s.b9, s.b6, s.b3⟩

/-- MixColumns over the four state columns. -/
def mixColumnsB (s : Block) : Block :=
  let k0 := mixCol ⟨s.b0, s.b1, s.b2, s.b3⟩
  let k1 := mixCol ⟨s.b4, s.b5, s.b6, s.b7⟩
  let k2 := mixCol ⟨s.b8, s.b9, s.b10, s.b11⟩
  let k3 := mixCol ⟨s.b12, s.b13, s.b14, s.b15⟩
  ⟨k0.c0, k0.c1, k0.c2, k0.c3, k1.c0, k1.c1, k1.c2, k1.c3,
   k2.c0, k2.c1, k2.c2, k2.c3, k3.c0, k3.c1, k3.c2, k3.c3⟩

/-- InvMixColumns over the four state columns. -/
def invMixColumnsB (s : Block) : Block :=
  let k0 := invMixCol ⟨s.b0, s.b1, s.b2, s.b3⟩
  let k1 := invMixCol ⟨s.b4, s.b5, s.b6, s.b7⟩
  let k2 := invMixCol ⟨s.b8, s.b9, s.b10, s.b11⟩
  let k3 := invMixCol ⟨s.b12, s.b13, s.b14, s.b15⟩
  ⟨k0.c0, k0.c1, k0.c2, k0.c3, k1.c0, k1.c1, k1.c2, k1.c3,
   k2.c0, k2.c1, k2.c2, k2.c3, k3.c0, k3.c1, k3.c2, k3.c3⟩

/-- Field-wise xor of two blocks; AddRoundKey and the CBC chaining xor. -/
def blockXor (s k : Block) : Block :=
  ⟨bxor s.b0 k.b0, bxor s.b1 k.b1, bxor s.b2 k.b2, bxor s.b3 k.b3,
   bxor s.b4 k.b4, bxor s.b5 k.b5, bxor s.b6 k.b6, bxor s.b7 k.b7,
   bxor s.b8 k.b8, bxor s.b9 k.b9, bxor s.b10 k.b10, bxor s.b11 k.b11,
   bxor s.b12 k.b12, bxor s.b13 k.b13, bxor s.b14 k.b14, bxor s.b15 k.b15⟩

theorem invSubBytesB_subBytesB (s : Block) : invSubBytesB (subBytesB s) = s := by
  cases s
  simp [subBytesB, invSubBytesB, invSbox_sbox]

theorem invShiftRowsB_shiftRowsB (s : Block) : invShiftRowsB (shiftRowsB s) = s := by
  cases s
  rfl

theorem col_mk_eta (v : Col) : (⟨v.c0, v.c1, v.c2, v.c3⟩ : Col) = v := rfl

theorem invMixColumnsB_mixColumnsB (s : Block) : invMixColumnsB (mixColumnsB s) = s := by
  cases s
  simp [mixColumnsB, invMixColumnsB, col_mk_eta, invMixCol_mixCol]

theorem blockXor_cancel (s k : Block) : blockXor (blockXor s k) k = s := by
  cases s
  cases k
  simp [blockXor, bxor_cancel]

/-! ## AES rounds, generic in the expanded round-key list -/

/-- Encryption rounds after the initial AddRoundKey: middle rounds then a final
round without MixColumns. -/
def encRounds : List Block → Block → Block
  | [], s => s
  | [k], s => blockXor (shiftRowsB (subBytesB s)) k
  | k :: k2 :: rest, s => encRounds (k2 :: rest) (blockXor (mixColumnsB (shiftRowsB (subBytesB s))) k)

/-- Decryption rounds inverting `encRounds`. -/
def decRounds : List Block → Block → Block
  | [], s => s
  | [k], s => invSubBytesB (invShiftRowsB (blockXor s k))
  | k :: k2 :: rest, s =>
      invSubBytesB (invShiftRowsB (invMixColumnsB (blockXor (decRounds (k2 :: rest) s) k)))

theorem decRounds_encRounds (ks : List Block) (s : Block) :
    decRounds ks (encRounds ks s) = s := by
  induction ks generalizing s with
  | nil => rfl
  | cons k rest ih =>
    cases rest with
    | nil =>
      simp [encRounds, decRounds, blockXor_cancel, invShiftRowsB_shiftRowsB,
        invSubBytesB_subBytesB]
    | cons k2 rest2 =>
      simp only [encRounds, decRounds]
      rw [ih, blockXor_cancel, invMixColumnsB_mixColumnsB, invShiftRowsB_shiftRowsB,
        invSubBytesB_subBytesB]

/-- Full AES block encryption for a given round-key list. -/
def encBlock (keys : List Block) (b : Block) : Block :=
  match keys with
  | [] => b
  | k0 :: rest => encRounds rest (blockXor b k0)

/-- Full AES block decryption for a given round-key list. -/
def decBlock (keys : List Block) (b : Block) : Block :=
  match keys with
  | [] => b
  | k0 :: rest => blockXor (decRounds rest b) k0

theorem decBlock_encBlock (keys : List Block) (b : Block) :
    decBlock keys (encBlock keys b) = b := by
  cases keys with
  | nil => rfl
  | cons k0 rest =>
    simp [encBlock, decBlock, decRounds_encRounds, blockXor_cancel]

/-! ## AES-256 key schedule -/

/-- Rotate a key-schedule word left by one byte. -/
def rotWord (w : Col) : Col := ⟨w.c1, w.c2, w.c3, w.c0⟩

/-- Apply the S-box to each byte of a key-schedule word. -/
def subWord (w : Col) : Col := ⟨sbox w.c0, sbox w.c1, sbox w.c2, sbox w.c3⟩

/-- One extension step of the AES-256 key schedule, appending one word. -/
def expandLoop : Nat → List Col × Byte → List Col × Byte
  | 0, st => st
  | n + 1, (ws, rc) =>
      let i := ws.length
      let prev := ws.getD (i - 1) ⟨0, 0, 0, 0⟩
      let old := ws.getD (i - 8) ⟨0, 0, 0, 0⟩
      if i % 8 == 0 then
        expandLoop n (ws ++ [colXor old (colXor (subWord (rotWord prev)) ⟨rc, 0, 0, 0⟩)], xtime rc)
      else if i % 8 == 4 then
        expandLoop n (ws ++ [colXor old (subWord prev)], rc)
      else
        expandLoop n (ws ++ [colXor old prev], rc)

/-- Make a byte from a Nat, reducing mod 256. -/
def mkByte (n : Nat) : Byte := ⟨n % 256, Nat.mod_lt _ (by norm_num)⟩

/-- The 60 words of the expanded AES-256 key. -/
def keyWords (key : List Byte) : List Col :=
  let init := (List.range 8).map fun i =>
    ⟨key.getD (4 * i) 0, key.getD (4 * i + 1) 0, key.getD (4 * i + 2) 0, key.getD (4 * i + 3) 0⟩
  (expandLoop 52 (init, 1)).1

/-- The fifteen AES-256 round keys derived from a 32-byte key. -/
def roundKeysOf (key : List Byte) : List Block :=
  let ws := keyWords key
  (List.range 15).map fun r =>
    let w0 := ws.getD (4 * r) ⟨0, 0, 0, 0⟩
    let w1 := ws.getD (4 * r + 1) ⟨0, 0, 0, 0⟩
    let w2 := ws.getD (4 * r + 2) ⟨0, 0, 0, 0⟩
    let w3 := ws.getD (4 * r + 3) ⟨0, 0, 0, 0⟩
    ⟨w0.c0, w0.c1, w0.c2, w0.c3, w1.c0, w1.c1, w1.c2, w1.c3,
     w2.c0, w2.c1, w2.c2, w2.c3, w3.c0, w3.c1, w3.c2, w3.c3⟩

/-! ## Byte-stream framing for CBC -/

/-- The bytes of a block, in stream order. -/
def blockBytes (b : Block) : List Byte :=
  [b.b0, b.b1, b.b2, b.b3, b.b4, b.b5, b.b6, b.b7,
   b.b8, b.b9, b.b10, b.b11, b.b12, b.b13, b.b14, b.b15]

/-- Concatenate a block list back into a byte stream. -/
def blocksBytes : List Block → List Byte
  | [] => []
  | b :: bs => blockBytes b ++ blocksBytes bs

/-- Split a byte stream into 16-byte blocks; none when not block-aligned. -/
def chunk16 : List Byte → Option (List Block)
  | [] => some []
  | a0 :: a1 :: a2 :: a3 :: a4 :: a5 :: a6 :: a7 ::
    a8 :: a9 :: a10 :: a11 :: a12 :: a13 :: a14 :: a15 :: rest =>
      (chunk16 rest).map fun bs =>
        (⟨a0, a1, a2, a3, a4, a5, a6, a7, a8, a9, a10, a11, a12, a13, a14, a15⟩ : Block) :: bs
  | _ => none

theorem chunk16_blocksBytes (bs : List Block) : chunk16 (blocksBytes bs) = some bs := by
  induction bs with
  | nil => rfl
  | cons b rest ih =>
    cases b
    simp [blocksBytes, blockBytes, chunk16, ih]

/-! ## PKCS7 padding (`padding.PKCS7(128)` in encryptor.py) -/

/-- Number of padding bytes PKCS7 appends to a message of length n. -/
def padLen (n : Nat) : Nat := 16 - n % 16

/-- PKCS7 pad: append padLen copies of the byte padLen. -/
def pkcs7Pad (bs : List Byte) : List Byte :=
  bs ++ List.replicate (padLen bs.length) (mkByte (padLen bs.length))

/-- PKCS7 unpad: validate and strip the padding, ValueError when invalid. -/
def pkcs7Unpad (bs : List Byte) : Except PyErr (List Byte) :=
  match bs.getLast? with
  | none => .error .valueError
  | some last =>
    let n := last.val
    if 1 ≤ n ∧ n ≤ 16 ∧ n ≤ bs.length ∧ (bs.drop (bs.length - n)).all (· == last) then
      .ok (bs.take (bs.length - n))
    else
      .error .valueError

theorem padLen_pos (n : Nat) : 1 ≤ padLen n := by
  simp only [padLen]
  omega

theorem padLen_le (n : Nat) : padLen n ≤ 16 := by
  simp only [padLen]
  omega

theorem replicate_getLast? (n : Nat) (x : Byte) (h : 1 ≤ n) :
    (List.replicate n x).getLast? = some x := by
  induction n with
  | zero => omega
  | succ m ih =>
    cases m with
    | zero => rfl
    | succ m2 =>
      rw [List.replicate_succ, List.replicate_succ, List.getLast?_cons_cons,
        ← List.replicate_succ]
      exact ih (by omega)

theorem pkcs7Unpad_pkcs7Pad (bs : List Byte) : pkcs7Unpad (pkcs7Pad bs) = .ok bs := by
  have hp1 : 1 ≤ padLen bs.length := padLen_pos bs.length
  have hp16 : padLen bs.length ≤ 16 := padLen_le bs.length
  have hlast : (pkcs7Pad bs).getLast? = some (mkByte (padLen bs.length)) := by
    rw [pkcs7Pad, List.getLast?_append_of_ne_nil]
    · exact replicate_getLast? _ _ hp1
    · simp [List.replicate, hp1]
      omega
  have hlen : (pkcs7Pad bs).length = bs.length + padLen bs.length := by
    simp [pkcs7Pad]
  have hval : (mkByte (padLen bs.length)).val = padLen bs.length := by
    simp [mkByte]
    omega
  rw [pkcs7Unpad, hlast]
  simp only [hval]
  rw [if_pos]
  · congr 1
    rw [hlen]
    rw [show bs.length + padLen bs.length - padLen bs.length = bs.length from by omega]
    rw [pkcs7Pad, List.take_left]
  · refine ⟨hp1, hp16, by omega, ?_⟩
    rw [hlen, show bs.length + padLen bs.length - padLen bs.length = bs.length from by omega,
      pkcs7Pad, List.drop_left]
    simp

/-! ## CBC mode with the fixed protocol IV (encryptor.py `_IV`) -/

/-- CBC encryption of a block sequence. -/
def cbcEnc (keys : List Block) : Block → List Block → List Block
  | _, [] => []
  | prev, b :: bs =>
      let c := encBlock keys (blockXor b prev)
      c :: cbcEnc keys c bs

/-- CBC decryption of a block sequence. -/
def cbcDec (keys : List Block) : Block → List Block → List Block
  | _, [] => []
  | prev, c :: cs => blockXor (decBlock keys c) prev :: cbcDec keys c cs

theorem cbcDec_cbcEnc (keys : List Block) (bs : List Block) :
    ∀ prev, cbcDec keys prev (cbcEnc keys prev bs) = bs := by
  induction bs with
  | nil => intro prev; rfl
  | cons b rest ih =>
    intro prev
    simp only [cbcEnc, cbcDec]
    rw [decBlock_encBlock, blockXor_cancel, ih]

/-- The hard-coded 16-byte initialization vector from encryptor.py. -/
def itIV : Block :=
  ⟨0x88, 0xA6, 0xB0, 0x79, 0x5D, 0x85, 0xDB, 0xFC,
   0xE6, 0xE0, 0xB3, 0xE9, 0xA6, 0x29, 0x65, 0x4B⟩

/-! ## MD5 (hashlib.md5, used only for key derivation) -/

/-- Truncate to a 32-bit word. -/
def w32 (x : Nat) : Nat := x % 4294967296

/-- 32-bit modular addition. -/
def wadd (a b : Nat) : Nat := w32 (a + b)

/-- 32-bit complement. -/
def wnot (a : Nat) : Nat := 4294967295 ^^^ w32 a

/-- 32-bit left rotation. -/
def rotl32 (x c : Nat) : Nat := w32 (x <<< c) ||| (w32 x) >>> (32 - c)

/-- The 64 MD5 sine-table constants. -/
def md5T : List Nat := [
  3614090360, 3905402710, 606105819, 3250441966, 4118548399, 1200080426, 2821735955, 4249261313,
  1770035416, 2336552879, 4294925233, 2304563134, 1804603682, 4254626195, 2792965006, 1236535329,
  4129170786, 3225465664, 643717713, 3921069994, 3593408605, 38016083, 3634488961, 3889429448,
  568446438, 3275163606, 4107603335, 1163531501, 2850285829, 4243563512, 1735328473, 2368359562,
  4294588738, 2272392833, 1839030562, 4259657740, 2763975236, 1272893353, 4139469664, 3200236656,
  681279174, 3936430074, 3572445317, 76029189, 3654602809, 3873151461, 530742520, 3299628645,
  4096336452, 1126891415, 2878612391, 4237533241, 1700485571, 2399980690, 4293915773, 2240044497,
  1873313359, 4264355552, 2734768916, 1309151649, 4149444226, 3174756917, 718787259, 3951481745]

/-- The 64 MD5 per-step rotation amounts. -/
def md5S : List Nat := [
  7, 12, 17, 22, 7, 12, 17, 22, 7, 12, 17, 22, 7, 12, 17, 22,
  5, 9, 14, 20, 5, 9, 14, 20, 5, 9, 14, 20, 5, 9, 14, 20,
  4, 11, 16, 23, 4, 11, 16, 23, 4, 11, 16, 23, 4, 11, 16, 23,
  6, 10, 15, 21, 6, 10, 15, 21, 6, 10, 15, 21, 6, 10, 15, 21]

/-- One MD5 step (index i in 0..63) over the 16 words of the current chunk. -/
def md5Step (M : List Nat) (st : Nat × Nat × Nat × Nat) (i : Nat) : Nat × Nat × Nat × Nat :=
  let a := st.1
  let b := st.2.1
  let c := st.2.2.1
  let d := st.2.2.2
  let f :=
    if i < 16 then (b &&& c) ||| (wnot b &&& d)
    else if i < 32 then (d &&& b) ||| (wnot d &&& c)
    else if i < 48 then b ^^^ c ^^^ d
    else c ^^^ (b ||| wnot d)
  let g :=
    if i < 16 then i
    else if i < 32 then (5 * i + 1) % 16
    else if i < 48 then (3 * i + 5) % 16
    else 7 * i % 16
  let tmp := wadd (wadd (wadd a f) (md5T.getD i 0)) (M.getD g 0)
  (d, wadd b (rotl32 tmp (md5S.getD i 0)), b, c)

/-- Process one 64-byte chunk (given as 16 little-endian words). -/
def md5Chunk (st : Nat × Nat × Nat × Nat) (M : List Nat) : Nat × Nat × Nat × Nat :=
  let r := (List.range 64).foldl (md5Step M) st
  (wadd st.1 r.1, wadd st.2.1 r.2.1, wadd st.2.2.1 r.2.2.1, wadd st.2.2.2 r.2.2.2)

/-- Split bytes into 16 little-endian 32-bit words (one 64-byte chunk). -/
def chunkWords (bs : List Byte) : List Nat :=
  (List.range 16).map fun j =>
    bs.getD (4 * j) 0 + 256 * bs.getD (4 * j + 1) 0 +
      65536 * bs.getD (4 * j + 2) 0 + 16777216 * bs.getD (4 * j + 3) 0

/-- Fold MD5 over consecutive 64-byte chunks, with fuel for termination. -/
def md5Chunks : Nat → (Nat × Nat × Nat × Nat) → List Byte → Nat × Nat × Nat × Nat
  | 0, st, _ => st
  | _ + 1, st, [] => st
  | fuel + 1, st, bs => md5Chunks fuel (md5Chunk st (chunkWords (bs.take 64))) (bs.drop 64)

/-- Little-endian byte expansion of a 32-bit word. -/
def word4LE (x : Nat) : List Byte :=
  [mkByte x, mkByte (x / 256), mkByte (x / 65536), mkByte (x / 16777216)]

/-- MD5 message padding: 0x80, zeros to 56 mod 64, 8-byte little-endian bit length. -/
def md5PadMsg (msg : List Byte) : List Byte :=
  let bitLen := 8 * msg.length
  let zeros := (56 + 64 - (msg.length + 1) % 64) % 64
  msg ++ [⟨128, by norm_num⟩] ++ List.replicate zeros 0 ++
    (List.range 8).map fun i => mkByte (bitLen / 256 ^ i)

/-- The MD5 digest (16 bytes) of a byte string. -/
def md5Bytes (msg : List Byte) : List Byte :=
  let padded := md5PadMsg msg
  let st := md5Chunks (padded.length / 64 + 1) (1732584193, 4023233417, 2562383102, 271733878) padded
  word4LE st.1 ++ word4LE st.2.1 ++ word4LE st.2.2.1 ++ word4LE st.2.2.2

/-! ## The IT600Encryptor (encryptor.py) -/

/-- UTF-8 bytes of a string, as `str.encode()` produces (the byte list of
`String.toUTF8`, kept as a plain list). -/
def strUtf8 (s : String) : List Byte :=
  (s.data.flatMap String.utf8EncodeChar).map fun b => mkByte b.toNat

/-- Key derivation from encryptor.py: `md5(("Salus-" + euid.lower()).encode()) + bytes(16)`. -/
def it600Key (euid : String) : List Byte :=
  md5Bytes (strUtf8 ("Salus-" ++ euid.toLower)) ++ List.replicate 16 0

/-- AES-256-CBC encryption with PKCS7 padding for an explicit 32-byte key. -/
def encryptWithKey (key : List Byte) (plain : List Byte) : List Byte :=
  blocksBytes (cbcEnc (roundKeysOf key) itIV ((chunk16 (pkcs7Pad plain)).getD []))

/-- AES-256-CBC decryption with PKCS7 unpadding for an explicit 32-byte key;
ValueError models the backend errors for non-block-aligned input and for
invalid padding. -/
def decryptWithKey (key : List Byte) (raw : List Byte) : Except PyErr (List Byte) :=
  match chunk16 raw with
  | none => .error .valueError
  | some cs => pkcs7Unpad (blocksBytes (cbcDec (roundKeysOf key) itIV cs))

/-- IT600Encryptor.encrypt over the UTF-8 bytes of the plaintext. -/
def encryptIT600 (euid : String) (plain : List Byte) : List Byte :=
  encryptWithKey (it600Key euid) plain

/-- IT600Encryptor.decrypt. -/
def decryptIT600 (euid : String) (raw : List Byte) : Except PyErr (List Byte) :=
  decryptWithKey (it600Key euid) raw

theorem chunk16_aligned (l : List Byte) (h : l.length % 16 = 0) :
    ∃ blks, chunk16 l = some blks ∧ blocksBytes blks = l := by
  induction l using chunk16.induct with
  | case1 => exact ⟨[], rfl, rfl⟩
  | case2 a0 a1 a2 a3 a4 a5 a6 a7 a8 a9 a10 a11 a12 a13 a14 a15 rest ih =>
    obtain ⟨blks, hc, hb⟩ := ih (by simp at h; omega)
    refine ⟨(⟨a0, a1, a2, a3, a4, a5, a6, a7, a8, a9, a10, a11, a12, a13, a14, a15⟩ : Block) :: blks,
      ?_, ?_⟩
    · simp [chunk16, hc]
    · simp [blocksBytes, blockBytes, hb]
  | case3 l hne hshape =>
    exfalso
    revert h hshape hne
    match l with
    | [] => intro hne _ _; exact hne rfl
    | [x0] => intro _ _ h; simp at h
    | [x0, x1] => intro _ _ h; simp at h
    | [x0, x1, x2] => intro _ _ h; simp at h
    | [x0, x1, x2, x3] => intro _ _ h; simp at h
    | [x0, x1, x2, x3, x4] => intro _ _ h; simp at h
    | [x0, x1, x2, x3, x4, x5] => intro _ _ h; simp at h
    | [x0, x1, x2, x3, x4, x5, x6] => intro _ _ h; simp at h
    | [x0, x1, x2, x3, x4, x5, x6, x7] => intro _ _ h; simp at h
    | [x0, x1, x2, x3, x4, x5, x6, x7, x8] => intro _ _ h; simp at h
    | [x0, x1, x2, x3, x4, x5, x6, x7, x8, x9] => intro _ _ h; simp at h
    | [x0, x1, x2, x3, x4, x5, x6, x7, x8, x9, x10] => intro _ _ h; simp at h
    | [x0, x1, x2, x3, x4, x5, x6, x7, x8, x9, x10, x11] => intro _ _ h; simp at h
    | [x0, x1, x2, x3, x4, x5, x6, x7, x8, x9, x10, x11, x12] => intro _ _ h; simp at h
    | [x0, x1, x2, x3, x4, x5, x6, x7, x8, x9, x10, x11, x12, x13] => intro _ _ h; simp at h
    | [x0, x1, x2, x3, x4, x5, x6, x7, x8, x9, x10, x11, x12, x13, x14] => intro _ _ h; simp at h
    | x0 :: x1 :: x2 :: x3 :: x4 :: x5 :: x6 :: x7 :: x8 :: x9 :: x10 :: x11 :: x12 :: x13 :: x14 :: x15 :: rest =>
      intro _ hshape _
      exact hshape x0 x1 x2 x3 x4 x5 x6 x7 x8 x9 x10 x11 x12 x13 x14 x15 rest rfl
set_option maxRecDepth 100000 in
example :
    (encryptWithKey
      [249, 59, 177, 233, 40, 140, 78, 17, 44, 141, 36, 238, 53, 231, 188, 168,
       0, 0, 0, 0, 0, 0, 0, 0, 0, 0, 0, 0, 0, 0, 0, 0]
      [123, 34, 114, 101, 113, 117, 101, 115, 116, 65, 116, 116, 114, 34, 58, 32,
       34, 114, 101, 97, 100, 97, 108, 108, 34, 125]).map Fin.val =
    [100, 171, 49, 231, 223, 143, 102, 218, 165, 67, 216, 84, 143, 250, 172, 170,
     90, 250, 179, 109, 234, 57, 43, 16, 25, 49, 0, 50, 35, 240, 49, 207] := by
  rfl

theorem pkcs7Pad_length_mod (bs : List Byte) : (pkcs7Pad bs).length % 16 = 0 := by
  simp only [pkcs7Pad, List.length_append, List.length_replicate, padLen]
  omega

theorem decryptWithKey_encryptWithKey (key plain : List Byte) :
    decryptWithKey key (encryptWithKey key plain) = .ok plain := by
  obtain ⟨blks, hc, hb⟩ := chunk16_aligned (pkcs7Pad plain) (pkcs7Pad_length_mod plain)
  rw [encryptWithKey, hc]
  simp only [Option.getD_some]
  rw [decryptWithKey, chunk16_blocksBytes]
  show pkcs7Unpad (blocksBytes (cbcDec (roundKeysOf key) itIV
    (cbcEnc (roundKeysOf key) itIV blks))) = Except.ok plain
  rw [cbcDec_cbcEnc, hb, pkcs7Unpad_pkcs7Pad]

/-! ## JSON values (the raw gateway payloads handled by gateway.py) -/

/-- A JSON value as produced by `json.loads`; `jnull` also stands for Python
None (absent fields read through `dict.get`). Numbers are modelled as
rationals. -/
inductive JValue where
  | jnull
  | jbool (b : Bool)
  | jnum (q : ℚ)
  | jstr (s : String)
  | jarr (xs : List JValue)
  | jobj (fields : List (String × JValue))
deriving Repr

/-- First-match association lookup inside a JSON object. -/
def jfind : List (String × JValue) → String → Option JValue
  | [], _ => none
  | (k, v) :: rest, key => if k = key then some v else jfind rest key

/-- Python `d.get(k)`: None when absent, AttributeError when d is not a dict. -/
def pyGet (v : JValue) (k : String) : Except PyErr JValue :=
  match v with
  | .jobj fs => .ok ((jfind fs k).getD .jnull)
  | _ => .error .attributeError

/-- Python `d.get(k, default)`. -/
def pyGetD (v : JValue) (k : String) (dflt : JValue) : Except PyErr JValue :=
  match v with
  | .jobj fs => .ok ((jfind fs k).getD dflt)
  | _ => .error .attributeError

/-- Python `d[k]` for a string key: KeyError when absent, TypeError when the
value is not a dict. -/
def pyItem (v : JValue) (k : String) : Except PyErr JValue :=
  match v with
  | .jobj fs =>
    match jfind fs k with
    | some x => .ok x
    | none => .error .keyError
  | _ => .error .typeError

/-- Python truthiness of a JSON value. -/
def pyTruthy : JValue → Bool
  | .jnull => false
  | .jbool b => b
  | .jnum q => q != 0
  | .jstr s => s != ""
  | .jarr xs => !xs.isEmpty
  | .jobj fs => !fs.isEmpty

/-- Python `==` on JSON scalars; True/False compare equal to 1/0. The gateway
code only ever equality-compares scalar fields, so container comparison
(never reached) is conservatively false. -/
def pyEq (a b : JValue) : Bool :=
  match a, b with
  | .jnull, .jnull => true
  | .jbool x, .jbool y => x == y
  | .jbool x, .jnum q => (if x then (1 : ℚ) else 0) == q
  | .jnum q, .jbool x => q == (if x then (1 : ℚ) else 0)
  | .jnum x, .jnum y => x == y
  | .jstr x, .jstr y => x == y
  | _, _ => false

/-- Python `len`. -/
def pyLen (v : JValue) : Except PyErr Nat :=
  match v with
  | .jstr s => .ok s.length
  | .jarr xs => .ok xs.length
  | .jobj fs => .ok fs.length
  | _ => .error .typeError

/-- Python `v[i]` for a non-negative index. -/
def pyIndex (v : JValue) (i : Nat) : Except PyErr JValue :=
  match v with
  | .jstr s => if h : i < s.data.length then .ok (.jstr (String.mk [s.data.get ⟨i, h⟩])) else .error .indexError
  | .jarr xs => if h : i < xs.length then .ok (xs.get ⟨i, h⟩) else .error .indexError
  | _ => .error .typeError

/-- Python `v[a:b]` slicing with clamping. -/
def pySlice (v : JValue) (a b : Nat) : Except PyErr JValue :=
  match v with
  | .jstr s => .ok (.jstr (String.mk ((s.data.drop a).take (b - a))))
  | .jarr xs => .ok (.jarr ((xs.drop a).take (b - a)))
  | _ => .error .typeError

/-- Decimal digit of a character, if any. -/
def digitVal (c : Char) : Option Nat :=
  if c.isDigit then some (c.toNat - 48) else none

/-- Parse the digits of a decimal literal. -/
def digitsVal : List Char → Option Nat
  | [] => none
  | cs => cs.foldl (fun acc c => match acc, digitVal c with
      | some n, some d => some (10 * n + d)
      | _, _ => none) (some 0)

/-- Python `int(s)` on a string: optional surrounding spaces and sign, then
decimal digits. -/
def pyIntOfStr (s : String) : Option Int :=
  let cs := (s.data.dropWhile (· = ' ')).reverse.dropWhile (· = ' ') |>.reverse
  match cs with
  | '-' :: rest => (digitsVal rest).map fun n => -(n : Int)
  | '+' :: rest => (digitsVal rest).map fun n => (n : Int)
  | rest => (digitsVal rest).map fun n => (n : Int)

/-- Python `int(x)`: parse strings, truncate numbers toward zero, booleans to
0/1, TypeError otherwise. -/
def pyInt (v : JValue) : Except PyErr Int :=
  match v with
  | .jstr s =>
    match pyIntOfStr s with
    | some n => .ok n
    | none => .error .valueError
  | .jnum q => .ok (q.num / (q.den : Int))
  | .jbool b => .ok (if b then 1 else 0)
  | _ => .error .typeError

/-- Hexadecimal digit of a character, if any. -/
def hexVal (c : Char) : Option Nat :=
  if c.isDigit then some (c.toNat - 48)
  else if 'a' ≤ c ∧ c ≤ 'f' then some (c.toNat - 87)
  else if 'A' ≤ c ∧ c ≤ 'F' then some (c.toNat - 70)
  else none

/-- Parse the digits of a hexadecimal literal. -/
def hexDigitsVal : List Char → Option Nat
  | [] => none
  | cs => cs.foldl (fun acc c => match acc, hexVal c with
      | some n, some d => some (16 * n + d)
      | _, _ => none) (some 0)

/-- Python `int(s, 16)` on a string. -/
def pyIntHexOfStr (s : String) : Option Int :=
  let cs := (s.data.dropWhile (· = ' ')).reverse.dropWhile (· = ' ') |>.reverse
  match cs with
  | '-' :: rest => (hexDigitsVal rest).map fun n => -(n : Int)
  | '+' :: rest => (hexDigitsVal rest).map fun n => (n : Int)
  | rest => (hexDigitsVal rest).map fun n => (n : Int)

/-- Python `int(x, 16)`: only strings are accepted. -/
def pyIntHex (v : JValue) : Except PyErr Int :=
  match v with
  | .jstr s =>
    match pyIntHexOfStr s with
    | some n => .ok n
    | none => .error .valueError
  | _ => .error .typeError

/-- Python numeric division by a constant. -/
def pyDiv (v : JValue) (d : ℚ) : Except PyErr ℚ :=
  match v with
  | .jnum q => .ok (q / d)
  | .jbool b => .ok ((if b then (1 : ℚ) else 0) / d)
  | _ => .error .typeError

/-- Python `x % m` for a positive numeric constant m. -/
def pyMod (v : JValue) (m : ℚ) : Except PyErr ℚ :=
  match v with
  | .jnum q => .ok (q - m * ⌊q / m⌋)
  | .jbool b => .ok ((if b then (1 : ℚ) else 0) - m * ⌊(if b then (1 : ℚ) else 0) / m⌋)
  | _ => .error .typeError

/-- Python `a < b` on numbers and strings. -/
def pyLt (a b : JValue) : Except PyErr Bool :=
  match a, b with
  | .jnum x, .jnum y => .ok (x < y)
  | .jnum x, .jbool y => .ok (x < if y then 1 else 0)
  | .jbool x, .jnum y => .ok ((if x then (1 : ℚ) else 0) < y)
  | .jbool x, .jbool y => .ok ((if x then (1 : ℚ) else 0) < if y then 1 else 0)
  | .jstr x, .jstr y => .ok (x < y)
  | _, _ => .error .typeError

/-- Character of a decimal digit. -/
def digitChar : Nat → Char
  | 0 => '0'
  | 1 => '1'
  | 2 => '2'
  | 3 => '3'
  | 4 => '4'
  | 5 => '5'
  | 6 => '6'
  | 7 => '7'
  | 8 => '8'
  | _ => '9'

/-- Decimal digits of a natural number (with fuel for termination). -/
def natDigitsAux : Nat → Nat → List Char
  | 0, _ => []
  | fuel + 1, n => if n < 10 then [digitChar n] else natDigitsAux fuel (n / 10) ++ [digitChar (n % 10)]

/-- Decimal string of a natural number. -/
def natToStr (n : Nat) : String := String.mk (natDigitsAux (n + 1) n)

/-- Decimal string of an integer. -/
def intToStr (i : Int) : String :=
  if i < 0 then "-" ++ natToStr i.natAbs else natToStr i.natAbs

/-- Python `str(x)` as used in f-strings over scalar JSON values. -/
def pyToStr (v : JValue) : String :=
  match v with
  | .jstr s => s
  | .jnull => "None"
  | .jbool b => if b then "True" else "False"
  | .jnum q => if q.den = 1 then intToStr q.num else intToStr q.num ++ "/" ++ natToStr q.den
  | .jarr _ => "[...]"
  | .jobj _ => "\x7b...\x7d"

/-! ## A small JSON parser (json.loads, used by the device-name helper) -/

/-- JSON whitespace predicate. -/
def jsonWsChar : Char → Bool
  | ' ' => true
  | '\t' => true
  | '\n' => true
  | '\r' => true
  | _ => false

/-- Drop leading JSON whitespace. -/
def jsonTrim (cs : List Char) : List Char := cs.dropWhile jsonWsChar

/-- The single-character escape table of a JSON string literal. -/
def jsonEscape : Char → Option Char
  | 'b' => some (Char.ofNat 8)
  | 'f' => some (Char.ofNat 12)
  | 'n' => some (Char.ofNat 10)
  | 'r' => some (Char.ofNat 13)
  | 't' => some (Char.ofNat 9)
  | '/' => some '/'
  | '\\' => some '\\'
  | '"' => some '"'
  | _ => none

/-- The tail of a JSON string literal after the opening quote, accumulating
the decoded characters in reverse. -/
def jsonStrTail (acc : List Char) : List Char → Option (String × List Char)
  | [] => none
  | c :: rest =>
    if c == '"' then
      some (String.mk acc.reverse, rest)
    else if c == '\\' then
      match rest with
      | 'u' :: h1 :: h2 :: h3 :: h4 :: r =>
        match hexVal h1, hexVal h2, hexVal h3, hexVal h4 with
        | some a, some b, some c2, some d =>
          jsonStrTail (Char.ofNat (((a * 16 + b) * 16 + c2) * 16 + d) :: acc) r
        | _, _, _, _ => none
      | e :: r =>
        match jsonEscape e with
        | some ch => jsonStrTail (ch :: acc) r
        | none => none
      | [] => none
    else
      jsonStrTail (c :: acc) rest

/-- The longest leading digit run: its value, its length and the remainder. -/
def jsonDigits : List Char → Nat → Nat → Nat × Nat × List Char
  | c :: rest, acc, n =>
    if c.isDigit then jsonDigits rest (acc * 10 + (c.toNat - 48)) (n + 1)
    else (acc, n, c :: rest)
  | [], acc, n => (acc, n, [])

/-- An unsigned JSON number: integer part, optional fraction, optional
exponent, combined exactly. -/
def jsonNumberAbs (cs : List Char) : Option (ℚ × List Char) :=
  let ipart := jsonDigits cs 0 0
  if ipart.2.1 = 0 then none
  else
    let frac :=
      match ipart.2.2 with
      | '.' :: t => jsonDigits t 0 0
      | r => (0, 0, r)
    let expo :=
      match frac.2.2 with
      | 'e' :: '-' :: t => (true, jsonDigits t 0 0)
      | 'E' :: '-' :: t => (true, jsonDigits t 0 0)
      | 'e' :: '+' :: t => (false, jsonDigits t 0 0)
      | 'E' :: '+' :: t => (false, jsonDigits t 0 0)
      | 'e' :: t => (false, jsonDigits t 0 0)
      | 'E' :: t => (false, jsonDigits t 0 0)
      | r => (false, (0, 0, r))
    let mant : ℚ := (ipart.1 : ℚ) + (frac.1 : ℚ) / (10 : ℚ) ^ frac.2.1
    let value : ℚ :=
      if expo.1 then mant / (10 : ℚ) ^ expo.2.1 else mant * (10 : ℚ) ^ expo.2.1
    some (value, expo.2.2.2)

/-- A JSON number with its optional sign. -/
def jsonNumber (cs : List Char) : Option (ℚ × List Char) :=
  match cs with
  | '-' :: tail => (jsonNumberAbs tail).map fun p => (-p.1, p.2)
  | _ => jsonNumberAbs cs

/-- Strip a keyword from the front of the input, if it is there. -/
def jsonLit : List Char → List Char → Option (List Char)
  | [], cs => some cs
  | k :: ks, c :: cs => if k == c then jsonLit ks cs else none
  | _ :: _, [] => none

mutual

/-- Parse one JSON value; the fuel bounds the recursion depth. -/
def jsonValue : Nat → List Char → Option (JValue × List Char)
  | 0, _ => none
  | f + 1, input =>
    match jsonTrim input with
    | [] => none
    | c :: cs =>
      if c == '"' then
        (jsonStrTail [] cs).map fun p => (JValue.jstr p.1, p.2)
      else if c == '[' then
        match jsonTrim cs with
        | ']' :: r => some (JValue.jarr [], r)
        | r => (jsonElems f r).map fun p => (JValue.jarr p.1, p.2)
      else if c == Char.ofNat 123 then
        match jsonTrim cs with
        | d :: r =>
          if d == Char.ofNat 125 then some (JValue.jobj [], r)
          else (jsonMembers f (d :: r)).map fun p => (JValue.jobj p.1, p.2)
        | [] => none
      else
        match jsonLit ['n', 'u', 'l', 'l'] (c :: cs) with
        | some r => some (JValue.jnull, r)
        | none =>
          match jsonLit ['t', 'r', 'u', 'e'] (c :: cs) with
          | some r => some (JValue.jbool true, r)
          | none =>
            match jsonLit ['f', 'a', 'l', 's', 'e'] (c :: cs) with
            | some r => some (JValue.jbool false, r)
            | none => (jsonNumber (c :: cs)).map fun p => (JValue.jnum p.1, p.2)

/-- Parse the elements of a nonempty JSON array after the bracket. -/
def jsonElems : Nat → List Char → Option (List JValue × List Char)
  | 0, _ => none
  | f + 1, input =>
    match jsonValue f input with
    | none => none
    | some (v, r) =>
      match jsonTrim r with
      | ',' :: r2 => (jsonElems f r2).map fun p => (v :: p.1, p.2)
      | ']' :: r2 => some ([v], r2)
      | _ => none

/-- Parse the members of a nonempty JSON object after the brace. -/
def jsonMembers : Nat → List Char → Option (List (String × JValue) × List Char)
  | 0, _ => none
  | f + 1, input =>
    match jsonTrim input with
    | '"' :: r =>
      match jsonStrTail [] r with
      | none => none
      | some (key, r1) =>
        match jsonTrim r1 with
        | ':' :: r2 =>
          match jsonValue f r2 with
          | none => none
          | some (v, r3) =>
            match jsonTrim r3 with
            | ',' :: r4 => (jsonMembers f r4).map fun p => ((key, v) :: p.1, p.2)
            | d :: r4 => if d == Char.ofNat 125 then some ([(key, v)], r4) else none
            | [] => none
        | _ => none
    | _ => none

end

/-- Python json.loads: parse a complete JSON document. -/
def jsonParse (s : String) : Option JValue :=
  match jsonValue (s.length + 2) s.data with
  | some (v, rest) => if (jsonTrim rest).isEmpty then some v else none
  | none => none

/-! ## Constants (const.py) -/

/-- Temperature unit string. -/
def TEMP_CELSIUS : String := "°C"

/-- Climate feature bit: target temperature. -/
def SUPPORT_TARGET_TEMPERATURE : Nat := 1

/-- Climate feature bit: fan mode. -/
def SUPPORT_FAN_MODE : Nat := 8

/-- Climate feature bit: preset mode. -/
def SUPPORT_PRESET_MODE : Nat := 16

/-- Cover feature bit: open. -/
def SUPPORT_OPEN : Nat := 1

/-- Cover feature bit: close. -/
def SUPPORT_CLOSE : Nat := 2

/-- Cover feature bit: set position. -/
def SUPPORT_SET_POSITION : Nat := 4

/-- HVAC mode strings. -/
def HVAC_MODE_OFF : String := "off"

/-- HVAC mode heat. -/
def HVAC_MODE_HEAT : String := "heat"

/-- HVAC mode cool. -/
def HVAC_MODE_COOL : String := "cool"

/-- HVAC mode auto. -/
def HVAC_MODE_AUTO : String := "auto"

/-- HVAC action: off. -/
def CURRENT_HVAC_OFF : String := "off"

/-- HVAC action: actively heating. -/
def CURRENT_HVAC_HEAT : String := "heating"

/-- HVAC action: heat selected but idle (the string value is "idle"). -/
def CURRENT_HVAC_HEAT_IDLE : String := "idle"

/-- HVAC action: actively cooling. -/
def CURRENT_HVAC_COOL : String := "cooling"

/-- HVAC action: cool selected but idle (the string value is "idle"). -/
def CURRENT_HVAC_COOL_IDLE : String := "idle"

/-- HVAC action: idle. -/
def CURRENT_HVAC_IDLE : String := "idle"

/-- Preset strings. -/
def PRESET_FOLLOW_SCHEDULE : String := "Follow Schedule"

/-- Preset permanent hold. -/
def PRESET_PERMANENT_HOLD : String := "Permanent Hold"

/-- Preset temporary hold. -/
def PRESET_TEMPORARY_HOLD : String := "Temporary Hold"

/-- Preset eco. -/
def PRESET_ECO : String := "Eco"

/-- Preset off. -/
def PRESET_OFF : String := "Off"

/-- Fan mode strings. -/
def FAN_MODE_AUTO : String := "auto"

/-- Fan mode high. -/
def FAN_MODE_HIGH : String := "high"

/-- Fan mode medium. -/
def FAN_MODE_MEDIUM : String := "medium"

/-- Fan mode low. -/
def FAN_MODE_LOW : String := "low"

/-- Fan mode off. -/
def FAN_MODE_OFF : String := "off"

/-- Thermostat error-flag table (field name, description), in source order. -/
def THERMOSTAT_ERROR_CODES : List (String × String) := [
  ("Error01", "Paired TRV hardware issue"),
  ("Error02", "Floor sensor overheating"),
  ("Error03", "Floor sensor open"),
  ("Error04", "Floor sensor short"),
  ("Error05", "Lost link with ZigBee Coordinator"),
  ("Error06", "Lost link with Wiring Center KL08RF"),
  ("Error07", "Lost link with TRV"),
  ("Error08", "Lost link with RX10RF (RX1)"),
  ("Error09", "Lost link with RX10RF (RX2)"),
  ("Error21", "Paired TRV lost link with Coordinator"),
  ("Error22", "Paired TRV low battery"),
  ("Error23", "Message from unpaired TRV"),
  ("Error24", "Rejected by Wiring Centre"),
  ("Error25", "Lost link with Parent"),
  ("Error30", "Paired TRV gear issue"),
  ("Error31", "Paired TRV adaptation issue"),
  ("Error32", "Low battery")]

/-- Error codes that represent low-battery conditions. -/
def BATTERY_ERROR_CODES : List String := ["Error22", "Error32"]

/-- OEM models that are battery-powered thermostats reporting a 0-5 battery
level at Status_d character 99. -/
def BATTERY_OEM_MODELS : List String := ["SQ610RF", "SQ610RF(WB)", "SQ610RFNH"]

/-- Modelled from the spec: const.py as provided does not define
BATTERY_LEVEL_MAP although gateway.py imports and applies it; §4.4 of the
spec fixes the six-point table "0,1,2,3,4,5 map to 0,20,40,60,80,100%". -/
def BATTERY_LEVEL_MAP : List (Nat × Nat) := [(0, 0), (1, 20), (2, 40), (3, 60), (4, 80), (5, 100)]

/-- First-match lookup in the battery level table. -/
def batteryLevelGet : List (Nat × Nat) → Nat → Nat → Nat
  | [], _, dflt => dflt
  | (k, v) :: rest, key, dflt => if k = key then v else batteryLevelGet rest key dflt

/-- Voltage thresholds per curve: (threshold volts, percent, status). -/
def BATTERY_VOLTAGE_THRESHOLDS (curve : String) : Option (List (ℚ × Nat × String)) :=
  if curve = "window" then
    some [((2.6 : ℚ), 100, "full"), ((2.3 : ℚ), 50, "half"), ((2.1 : ℚ), 25, "low"), (0, 0, "critical")]
  else if curve = "door" then
    some [((2.9 : ℚ), 100, "full"), ((2.8 : ℚ), 50, "half"), ((2.2 : ℚ), 25, "low"), (0, 0, "critical")]
  else if curve = "energy_meter" then
    some [((5.2 : ℚ), 100, "full"), ((4.6 : ℚ), 50, "half"), ((4.2 : ℚ), 25, "low"), (0, 0, "critical")]
  else
    none

/-- Models using the door voltage curve. -/
def DOOR_VOLTAGE_MODELS : List String := ["SmokeSensor-EM", "WLS600", "TS600", "SD600"]

/-- Models using the window voltage curve. -/
def WINDOW_VOLTAGE_MODELS : List String := ["SW600", "OS600"]

/-- Models using the energy-meter voltage curve. -/
def ENERGY_METER_VOLTAGE_MODELS : List String := ["RE600", "RE10B"]

/-- Cover model to device-class map. -/
def COVER_DEVICE_CLASS_MAP : List (String × String) := [("SR600", "shutter"), ("RS600", "shutter")]

/-! ## Device records (models.py). The entity_category field on SensorDevice
and BinarySensorDevice, and extra_state_attributes on BinarySensorDevice, are
missing from models.py as provided although gateway.py writes them and
sensor.py / binary_sensor.py read them; they are modelled from the spec
(diagnostic child records carrying the active error descriptions, §4.4). -/

/-- Thermostat record (models.py ClimateDevice). -/
structure ClimateDevice where
  available : Bool
  name : String
  unique_id : String
  temperature_unit : String
  precision : ℚ
  current_temperature : ℚ
  target_temperature : ℚ
  max_temp : ℚ
  min_temp : ℚ
  current_humidity : Option ℚ
  hvac_mode : String
  hvac_action : String
  hvac_modes : List String
  preset_mode : String
  preset_modes : List String
  fan_mode : Option String
  fan_modes : Option (List String)
  locked : Option Bool
  supported_features : Nat
  device_class : String
  data : JValue
  manufacturer : JValue
  model : JValue
  sw_version : JValue
deriving Repr

/-- Binary sensor record (models.py BinarySensorDevice; entity_category and
extra_state_attributes modelled from the spec, see above). -/
structure BinarySensorDevice where
  available : Bool
  name : String
  unique_id : String
  is_on : Bool
  device_class : Option String
  data : JValue
  manufacturer : JValue
  model : JValue
  sw_version : JValue
  parent_unique_id : Option String := none
  entity_category : Option String := none
  extra_state_attributes : Option (List String) := none
deriving Repr

/-- Switch record (models.py SwitchDevice). -/
structure SwitchDevice where
  available : Bool
  name : String
  unique_id : String
  is_on : Bool
  device_class : String
  data : JValue
  manufacturer : JValue
  model : JValue
  sw_version : JValue
deriving Repr

/-- Cover record (models.py CoverDevice); the position field stores the raw
level value verbatim, as the source does. -/
structure CoverDevice where
  available : Bool
  name : String
  unique_id : String
  current_cover_position : JValue
  is_opening : Option Bool
  is_closing : Option Bool
  is_closed : Bool
  supported_features : Nat
  device_class : Option String
  data : JValue
  manufacturer : JValue
  model : JValue
  sw_version : JValue
deriving Repr

/-- Scalar sensor record (models.py SensorDevice; entity_category modelled
from the spec, see above). -/
structure SensorDevice where
  available : Bool
  name : String
  unique_id : String
  state : JValue
  unit_of_measurement : String
  device_class : String
  data : JValue
  manufacturer : JValue
  model : JValue
  sw_version : JValue
  parent_unique_id : Option String := none
  entity_category : Option String := none
deriving Repr

/-! ## Shared per-row extraction helpers (gateway.py) -/

/-- Row unique id: `ds.get("data", {}).get("UniID")` (evaluated before the
per-row failure boundary in every decoder). -/
def uidOf (ds : JValue) : Except PyErr JValue := do
  let d ← pyGetD ds "data" (.jobj [])
  pyGet d "UniID"

/-- Availability: `ds.get("sZDOInfo", {}).get("OnlineStatus_i", 1) == 1`. -/
def availOf (ds : JValue) : Except PyErr Bool := do
  let z ← pyGetD ds "sZDOInfo" (.jobj [])
  let v ← pyGetD z "OnlineStatus_i" (.jnum 1)
  pure (pyEq v (.jnum 1))

/-- Manufacturer: `ds.get("sBasicS", {}).get("ManufactureName", "SALUS")`. -/
def manufacturerOf (ds : JValue) : Except PyErr JValue := do
  let b ← pyGetD ds "sBasicS" (.jobj [])
  pyGetD b "ManufactureName" (.jstr "SALUS")

/-- Model identifier: `ds.get("DeviceL", {}).get("ModelIdentifier_i")`. -/
def modelIdOf (ds : JValue) : Except PyErr JValue := do
  let d ← pyGetD ds "DeviceL" (.jobj [])
  pyGet d "ModelIdentifier_i"

/-- Firmware version: `ds.get("sZDO", {}).get("FirmwareVersion")`. -/
def swVersionOf (ds : JValue) : Except PyErr JValue := do
  let z ← pyGetD ds "sZDO" (.jobj [])
  pyGet z "FirmwareVersion"

/-- The default DeviceName payload `json.dumps({"deviceName": fallback})`
(fallbacks used by the source are plain names needing no escaping). -/
def jsonDumpsName (fallback : String) : String :=
  "\x7b\"deviceName\": \"" ++ fallback ++ "\"\x7d"

/-- IT600Gateway._device_name: read the nested JSON-encoded name with a
fallback; JSONDecodeError and KeyError fall back, other errors propagate. -/
def deviceName (ds : JValue) (fallback : String) : Except PyErr String := do
  let szdo ← pyGetD ds "sZDO" (.jobj [])
  let raw ← pyGetD szdo "DeviceName" (.jstr (jsonDumpsName fallback))
  match raw with
  | .jstr s =>
    match jsonParse s with
    | none => pure fallback
    | some v =>
      match v with
      | .jobj fs =>
        match jfind fs "deviceName" with
        | some nm => pure (pyToStr nm)
        | none => pure fallback
      | _ => Except.error .typeError
  | _ => Except.error .typeError

/-- String-keyed lookup in a string-to-string table for a JSON model id. -/
def strMapGet (table : List (String × String)) (model : JValue) : Option String :=
  match model with
  | .jstr s => (table.find? fun p => p.1 = s).map Prod.snd
  | _ => none

/-- Membership of a JSON model id in a string set. -/
def strSetMem (set : List String) (model : JValue) : Bool :=
  match model with
  | .jstr s => set.contains s
  | _ => false

/-! ## Cover decoder (gateway.py _refresh_cover_devices, per row) -/

/-- One row of the cover decoder: the body inside the per-row try block.
none models the `continue` for disabled endpoints; errors are caught by the
row-level boundary in the surrounding loop. The target position is the low
byte of the hex move-to-level field when that field is a string of length at
least two. -/
def coverSetPosition (moveRaw : JValue) : Except PyErr (Option Int) :=
  if pyTruthy moveRaw then do
    let n ← pyLen moveRaw
    if 2 ≤ n then do
      let sl ← pySlice moveRaw 0 2
      let v ← pyIntHex sl
      pure (some v)
    else
      pure none
  else
    pure none

/-- The `is_opening` field: current < target when a target is present. -/
def coverOpening (setPos : Option Int) (currentPos : JValue) : Except PyErr (Option Bool) :=
  match setPos with
  | none => pure none
  | some t => do
    let b ← pyLt currentPos (.jnum (t : ℚ))
    pure (some b)

/-- The `is_closing` field: current > target when a target is present. -/
def coverClosing (setPos : Option Int) (currentPos : JValue) : Except PyErr (Option Bool) :=
  match setPos with
  | none => pure none
  | some t => do
    let b ← pyLt (.jnum (t : ℚ)) currentPos
    pure (some b)

/-- One row of the cover decoder body (see the doc comment above). -/
def coverRowTry (ds : JValue) (uid : String) : Except PyErr (Option CoverDevice) := do
  let buttonS ← pyGetD ds "sButtonS" (.jobj [])
  let mode ← pyGet buttonS "Mode"
  if pyEq mode (.jnum 0) then
    pure none
  else do
    let model ← modelIdOf ds
    let levelS ← pyGetD ds "sLevelS" (.jobj [])
    let currentPos ← pyGet levelS "CurrentLevel"
    let levelS2 ← pyGetD ds "sLevelS" (.jobj [])
    let moveRaw ← pyGet levelS2 "MoveToLevel_f"
    let setPos ← coverSetPosition moveRaw
    let avail ← availOf ds
    let nm ← deviceName ds "Unknown"
    let opening ← coverOpening setPos currentPos
    let closing ← coverClosing setPos currentPos
    let manu ← manufacturerOf ds
    let sw ← swVersionOf ds
    let dataV ← pyItem ds "data"
    pure (some
      { available := avail
        name := nm
        unique_id := uid
        current_cover_position := currentPos
        is_opening := opening
        is_closing := closing
        is_closed := pyEq currentPos (.jnum 0)
        supported_features := SUPPORT_OPEN ||| SUPPORT_CLOSE ||| SUPPORT_SET_POSITION
        device_class := strMapGet COVER_DEVICE_CLASS_MAP model
        data := dataV
        manufacturer := manu
        model := model
        sw_version := sw })

/-! ## Switch decoder (gateway.py _refresh_switch_devices) -/

/-- Replace-or-append insertion into an association list (dict assignment). -/
def setEntry {α : Type} : List (String × α) → String → α → List (String × α)
  | [], k, v => [(k, v)]
  | (k1, v1) :: rest, k, v =>
    if k1 = k then (k, v) :: rest else (k1, v1) :: setEntry rest k v

/-- First-match lookup in an association list (dict.get). -/
def getEntry {α : Type} : List (String × α) → String → Option α
  | [], _ => none
  | (k1, v1) :: rest, k => if k1 = k then some v1 else getEntry rest k

/-- The scratch maps built by one switch pass: switches and energy sensors. -/
structure SwitchScratch where
  sw : List (String × SwitchDevice)
  nrg : List (String × SensorDevice)
deriving Repr

/-- The switch row steps evaluated before the per-row try block: extract
UniID (skip when None) and suffix it with `ds["data"]["Endpoint"]`. Errors
here escape the row boundary. -/
def switchRowUid (ds : JValue) : Except PyErr (Option String) := do
  let uid0 ← uidOf ds
  match uid0 with
  | .jnull => pure none
  | u => do
    let d ← pyItem ds "data"
    let ep ← pyItem d "Endpoint"
    pure (some (pyToStr u ++ "_" ++ pyToStr ep))

/-- The body of the switch per-row try block, threading the scratch maps the
way the source mutates them: on an exception the insertions already made are
kept and the error is reported (then logged by the caller). -/
def switchRowTry (ds : JValue) (uid : String) (sc : SwitchScratch) : SwitchScratch × Option PyErr :=
  match pyGet ds "sLevelS" with
  | .error e => (sc, some e)
  | .ok levelV =>
    match levelV with
    | .jnull =>
      match (do
          let onOffS ← pyGetD ds "sOnOffS" (.jobj [])
          pyGet onOffS "OnOff" : Except PyErr JValue) with
      | .error e => (sc, some e)
      | .ok isOnRaw =>
        match isOnRaw with
        | .jnull => (sc, none)
        | _ =>
          match (do
              let model ← modelIdOf ds
              let avail ← availOf ds
              let nm ← deviceName ds uid
              let manu ← manufacturerOf ds
              let sw ← swVersionOf ds
              let dataV ← pyItem ds "data"
              pure (model, avail, nm, manu, sw, dataV) :
            Except PyErr (JValue × Bool × String × JValue × JValue × JValue)) with
          | .error e => (sc, some e)
          | .ok (model, avail, nm, manu, sw, dataV) =>
            let device : SwitchDevice :=
              { available := avail
                name := nm
                unique_id := uid
                is_on := pyEq isOnRaw (.jnum 1)
                device_class :=
                  if strSetMem ["SP600", "SPE600"] model then "outlet" else "switch"
                data := dataV
                manufacturer := manu
                model := model
                sw_version := sw }
            let sc1 : SwitchScratch := { sc with sw := setEntry sc.sw uid device }
            match pyGetD ds "sMeteringS" (.jobj []) with
            | .error e => (sc1, some e)
            | .ok metering =>
              match pyGet metering "InstantaneousDemand" with
              | .error e => (sc1, some e)
              | .ok powerRaw =>
                let sc2 : SwitchScratch :=
                  match powerRaw with
                  | .jnull => sc1
                  | p =>
                    let pr : SensorDevice :=
                      { available := device.available
                        name := device.name ++ " Power"
                        unique_id := uid ++ "_power"
                        state := p
                        unit_of_measurement := "W"
                        device_class := "power"
                        data := dataV
                        manufacturer := device.manufacturer
                        model := device.model
                        sw_version := device.sw_version
                        parent_unique_id := some uid
                        entity_category := none }
                    { sc1 with nrg := setEntry sc1.nrg (uid ++ "_power") pr }
                match pyGet metering "CurrentSummationDelivered" with
                | .error e => (sc2, some e)
                | .ok energyRaw =>
                  match energyRaw with
                  | .jnull => (sc2, none)
                  | ev =>
                    match pyDiv ev 1000 with
                    | .error e => (sc2, some e)
                    | .ok kwh =>
                      let er : SensorDevice :=
                        { available := device.available
                          name := device.name ++ " Energy"
                          unique_id := uid ++ "_energy"
                          state := .jnum kwh
                          unit_of_measurement := "kWh"
                          device_class := "energy"
                          data := dataV
                          manufacturer := device.manufacturer
                          model := device.model
                          sw_version := device.sw_version
                          parent_unique_id := some uid
                          entity_category := none }
                      ({ sc2 with nrg := setEntry sc2.nrg (uid ++ "_energy") er }, none)
    | _ => (sc, none)

/-- One full switch pass over the detail rows: the uid steps run outside the
per-row boundary (their errors abort the pass), the try-block errors are
swallowed per row. An ok result is the scratch assigned to the category maps
at the end of the pass. -/
def refreshSwitchRows : List JValue → SwitchScratch → Except PyErr SwitchScratch
  | [], sc => .ok sc
  | ds :: rest, sc =>
    match switchRowUid ds with
    | .error e => .error e
    | .ok none => refreshSwitchRows rest sc
    | .ok (some uid) => refreshSwitchRows rest (switchRowTry ds uid sc).1

/-- The per-row state update, ignoring the caught error. -/
def switchRowApply (ds : JValue) (sc : SwitchScratch) : SwitchScratch :=
  match switchRowUid ds with
  | .ok (some uid) => (switchRowTry ds uid sc).1
  | _ => sc

/-- Total per-row fold of a switch pass. -/
def switchFold : List JValue → SwitchScratch → SwitchScratch
  | [], sc => sc
  | ds :: rest, sc => switchFold rest (switchRowApply ds sc)

/-- Rows whose pre-boundary uid steps cannot raise: the row is an object
whose data block is an object that lacks UniID (row skipped) or carries an
Endpoint entry alongside it. -/
def switchRowSafe (ds : JValue) : Bool :=
  match ds with
  | .jobj fs =>
    match (jfind fs "data").getD (.jobj []) with
    | .jobj dfs =>
      match (jfind dfs "UniID").getD .jnull with
      | .jnull => true
      | _ => (jfind dfs "Endpoint").isSome
    | _ => false
  | _ => false

/-! ## Voltage-to-battery-percent helper (gateway._voltage_to_battery_pct) -/

/-- Scan the thresholds high to low; first threshold met wins, else 0%. -/
def scanThresholds : List (ℚ × Nat × String) → ℚ → Nat
  | [], _ => 0
  | (t, p, _) :: rest, v => if t ≤ v then p else scanThresholds rest v

/-- Convert a battery voltage to a percentage; the curve is chosen by model
set membership with the door curve as default; None only when the selected
curve is missing from the table. -/
def voltageToBatteryPct (voltage : ℚ) (model : JValue) : Option Nat :=
  let curve :=
    if strSetMem WINDOW_VOLTAGE_MODELS model then "window"
    else if strSetMem DOOR_VOLTAGE_MODELS model then "door"
    else if strSetMem ENERGY_METER_VOLTAGE_MODELS model then "energy_meter"
    else "door"
  match BATTERY_VOLTAGE_THRESHOLDS curve with
  | none => none
  | some thresholds => some (scanThresholds thresholds voltage)

/-! ## Sensor decoder (gateway.py _refresh_sensor_devices, per row) -/

/-- The humidity child block of the standalone-sensor decoder: a record is
emitted whenever the raw measured humidity is non-null. -/
def sensorHumidityChild (humidityRaw : JValue) (device : SensorDevice) (uid : String)
    (dataV : JValue) : Except PyErr (Option SensorDevice) :=
  match humidityRaw with
  | .jnull => pure none
  | hv => do
    let hq ← pyDiv hv 100
    pure (some
      { available := device.available
        name := device.name ++ " Humidity"
        unique_id := uid ++ "_humidity"
        state := .jnum hq
        unit_of_measurement := "%"
        device_class := "humidity"
        data := dataV
        manufacturer := device.manufacturer
        model := device.model
        sw_version := device.sw_version
        parent_unique_id := some uid
        entity_category := none })

/-- The battery child block of the standalone-sensor decoder: a record is
emitted whenever the raw voltage field is non-null, its state being the
helper's percentage for voltage/10 and the row's model. -/
def sensorBatteryChild (voltageRaw : JValue) (device : SensorDevice) (uid : String)
    (dataV model : JValue) : Except PyErr (Option SensorDevice) :=
  match voltageRaw with
  | .jnull => pure none
  | vv => do
    let voltage ← pyDiv vv 10
    match voltageToBatteryPct voltage model with
    | none => pure none
    | some pct =>
      pure (some
        { available := device.available
          name := device.name ++ " Battery"
          unique_id := uid ++ "_battery"
          state := .jnum (pct : ℚ)
          unit_of_measurement := "%"
          device_class := "battery"
          data := dataV
          manufacturer := device.manufacturer
          model := device.model
          sw_version := device.sw_version
          parent_unique_id := some uid
          entity_category := some "diagnostic" })

/-- One row of the standalone-sensor decoder: the body inside the per-row try
block. Returns the temperature device plus the optional humidity and battery
children; none models the skip when no measured temperature is present. -/
def sensorRowTry (ds : JValue) (uid : String) :
    Except PyErr (Option (SensorDevice × Option SensorDevice × Option SensorDevice)) := do
  let tempS ← pyGetD ds "sTempS" (.jobj [])
  let temperature ← pyGet tempS "MeasuredValue_x100"
  match temperature with
  | .jnull => pure none
  | tv => do
    let model ← modelIdOf ds
    let avail ← availOf ds
    let nm ← deviceName ds "Unknown"
    let manu ← manufacturerOf ds
    let sw ← swVersionOf ds
    let dataV ← pyItem ds "data"
    let tq ← pyDiv tv 100
    let device : SensorDevice :=
      { available := avail
        name := nm
        unique_id := uid ++ "_temp"
        state := .jnum tq
        unit_of_measurement := TEMP_CELSIUS
        device_class := "temperature"
        data := dataV
        manufacturer := manu
        model := model
        sw_version := sw }
    let relHum ← pyGetD ds "sRelativeHumidity" (.jobj [])
    let humidityRaw ← pyGet relHum "MeasuredValue_x100"
    let hum ← sensorHumidityChild humidityRaw device uid dataV
    let powerS ← pyGetD ds "sPowerS" (.jobj [])
    let voltageRaw ← pyGet powerS "BatteryVoltage_x10"
    let bat ← sensorBatteryChild voltageRaw device uid dataV model
    pure (some (device, hum, bat))

/-! ## Binary-sensor decoder (gateway.py _refresh_binary_sensor_devices) -/

/-- The raw state field of a binary-sensor row: relay status for the two
receiver models, else the alarm flag. -/
def binarySensorIsOnRaw (ds model : JValue) : Except PyErr JValue :=
  if strSetMem ["it600MINITRV", "it600Receiver"] model then do
    let b ← pyGetD ds "sIT600I" (.jobj [])
    pyGet b "RelayStatus"
  else do
    let b ← pyGetD ds "sIASZS" (.jobj [])
    pyGet b "ErrorIASZSAlarmed1"

/-- The device-class table of the binary-sensor decoder. -/
def binarySensorDeviceClass (model : JValue) : Option String :=
  if strSetMem ["SW600", "OS600"] model then some "window"
  else if pyEq model (.jstr "WLS600") then some "moisture"
  else if pyEq model (.jstr "SmokeSensor-EM") then some "smoke"
  else if pyEq model (.jstr "it600MINITRV") then some "heat"
  else if pyEq model (.jstr "it600Receiver") then some "running"
  else none

/-- The low-battery child record built from one flag value. -/
def binarySensorChild (device : BinarySensorDevice) (uid : String)
    (flag dataV : JValue) : BinarySensorDevice :=
  { available := device.available
    name := device.name ++ " Low battery"
    unique_id := uid ++ "_low_battery"
    is_on := pyEq flag (.jnum 1)
    device_class := some "battery"
    data := dataV
    manufacturer := device.manufacturer
    model := device.model
    sw_version := device.sw_version
    parent_unique_id := some uid
    entity_category := some "diagnostic" }

/-- One row of the binary-sensor decoder, threading the category map the way
the source mutates it: the main record is inserted before the two low-battery
fields are read, so an error in those reads keeps the record and suppresses
only the child; the caught error is reported alongside. A result with no
insertion and no error models the skips (null state field, SB600 button). -/
def binarySensorRowTry (ds : JValue) (uid : String)
    (sc : List (String × BinarySensorDevice)) :
    List (String × BinarySensorDevice) × Option PyErr :=
  match modelIdOf ds with
  | .error e => (sc, some e)
  | .ok model =>
    match binarySensorIsOnRaw ds model with
    | .error e => (sc, some e)
    | .ok isOnRaw =>
      match isOnRaw with
      | .jnull => (sc, none)
      | _ =>
        if pyEq model (.jstr "SB600") then (sc, none)
        else
          match (do
              let avail ← availOf ds
              let nm ← deviceName ds "Unknown"
              let manu ← manufacturerOf ds
              let sw ← swVersionOf ds
              let dataV ← pyItem ds "data"
              pure (avail, nm, manu, sw, dataV) :
            Except PyErr (Bool × String × JValue × JValue × JValue)) with
          | .error e => (sc, some e)
          | .ok (avail, nm, manu, sw, dataV) =>
            let device : BinarySensorDevice :=
              { available := avail
                name := nm
                unique_id := uid
                is_on := pyEq isOnRaw (.jnum 1)
                device_class := binarySensorDeviceClass model
                data := dataV
                manufacturer := manu
                model := model
                sw_version := sw }
            let sc1 := setEntry sc uid device
            match (do
                let a ← pyGetD ds "sIASZS" (.jobj [])
                pyGet a "ErrorIASZSLowBattery" : Except PyErr JValue) with
            | .error e => (sc1, some e)
            | .ok lowBattIaszs =>
              match (do
                  let p ← pyGetD ds "sPowerS" (.jobj [])
                  pyGet p "ErrorPowerSLowBattery" : Except PyErr JValue) with
              | .error e => (sc1, some e)
              | .ok lowBattPower =>
                match lowBattIaszs with
                | .jnull =>
                  match lowBattPower with
                  | .jnull => (sc1, none)
                  | pv => (setEntry sc1 (uid ++ "_low_battery")
                      (binarySensorChild device uid pv dataV), none)
                | bv => (setEntry sc1 (uid ++ "_low_battery")
                    (binarySensorChild device uid bv dataV), none)

/-! ## Climate decoder (gateway.py _refresh_climate_devices, per row) -/

/-- Python `float(x)`: numbers pass through, booleans become 0/1, numeric
strings parse, anything else raises. -/
def pyFloat (v : JValue) : Except PyErr ℚ :=
  match v with
  | .jnum q => .ok q
  | .jbool b => .ok (if b then 1 else 0)
  | .jstr s =>
    match jsonNumber (s.data.dropWhile (· = ' ')) with
    | some (q, rest) => if rest.dropWhile (· = ' ') = [] then .ok q else .error .valueError
    | none => .error .valueError
  | _ => .error .typeError

/-- Python `needle in hay` for strings. -/
def pyContains (needle : String) (hay : JValue) : Except PyErr Bool :=
  match hay with
  | .jstr s => .ok (decide (needle.data <:+: s.data))
  | _ => .error .typeError

/-- The heating-control code of Dialect A: the byte at hex offset 32-34 of
Status_d when the string is long enough, else 0. -/
def climateHeatingCtrl (statusD : JValue) : Except PyErr Int := do
  let n ← pyLen statusD
  if 34 ≤ n then do
    let sl ← pySlice statusD 32 34
    pyIntHex sl
  else
    pure 0

/-- The model-based humidity fallback of Dialect A: the model contains SQ610
but not RFNH. -/
def climateModelHasHumidity (modelStr : JValue) : Except PyErr Bool := do
  let c1 ← pyContains "SQ610" modelStr
  if c1 then do
    let c2 ← pyContains "RFNH" modelStr
    pure (!c2)
  else
    pure false

/-- The humidity value and child record of Dialect A, produced only when the
gate holds and the sunny setpoint field is non-null. -/
def climateHumidityPair (gate : Bool) (th model : JValue) (avail : Bool)
    (nm uid : String) (dataV manu sw : JValue) :
    Except PyErr (Option ℚ × Option SensorDevice) :=
  if gate then do
    let sunny ← pyGet th "SunnySetpoint_x100"
    match sunny with
    | .jnull => pure (none, none)
    | sv => do
      let hq ← pyFloat sv
      pure (some hq, some
        { available := avail
          name := nm ++ " Humidity"
          unique_id := uid ++ "_humidity"
          state := .jnum hq
          unit_of_measurement := "%"
          device_class := "humidity"
          data := dataV
          manufacturer := manu
          model := model
          sw_version := sw
          parent_unique_id := some uid
          entity_category := none })
  else
    pure (none, none)

/-- The hvac action of Dialect A: off on hold 7, else idle/heat by the parity
of the running state. -/
def climateActionA (hold running : JValue) : Except PyErr String :=
  if pyEq hold (.jnum 7) then
    pure CURRENT_HVAC_OFF
  else do
    let m ← pyMod running 2
    pure (if m == 0 then CURRENT_HVAC_IDLE else CURRENT_HVAC_HEAT)

/-- Dialect A (sIT600TH): the humidity gate and child, then the thermostat
record, exactly in source order (gateway.py lines 735-842). -/
def climateDialectA (th model : JValue) (avail : Bool) (nm uid : String)
    (dataV manu sw : JValue) :
    Except PyErr (ClimateDevice × Option SensorDevice) := do
  let statusD ← pyGetD th "Status_d" (.jstr "")
  let heatingCtrl ← climateHeatingCtrl statusD
  let modelStr := if pyTruthy model then model else .jstr ""
  let modelHasHumidity ← climateModelHasHumidity modelStr
  let hp ← climateHumidityPair (heatingCtrl = 1 ∨ modelHasHumidity) th model
    avail nm uid dataV manu sw
  let hold ← pyItem th "HoldType"
  let running ← pyItem th "RunningState"
  let curTemp ← pyDiv (← pyItem th "LocalTemperature_x100") 100
  let target ← pyDiv (← pyItem th "HeatingSetpoint_x100") 100
  let maxT ← pyDiv (← pyGetD th "MaxHeatSetpoint_x100" (.jnum 3500)) 100
  let minT ← pyDiv (← pyGetD th "MinHeatSetpoint_x100" (.jnum 500)) 100
  let action ← climateActionA hold running
  let device : ClimateDevice :=
    { available := avail
      name := nm
      unique_id := uid
      temperature_unit := TEMP_CELSIUS
      precision := (0.1 : ℚ)
      current_temperature := curTemp
      target_temperature := target
      max_temp := maxT
      min_temp := minT
      current_humidity := hp.1
      hvac_mode :=
        if pyEq hold (.jnum 7) then HVAC_MODE_OFF
        else if pyEq hold (.jnum 2) then HVAC_MODE_HEAT
        else HVAC_MODE_AUTO
      hvac_action := action
      hvac_modes := [HVAC_MODE_OFF, HVAC_MODE_HEAT, HVAC_MODE_AUTO]
      preset_mode :=
        if pyEq hold (.jnum 7) then PRESET_OFF
        else if pyEq hold (.jnum 2) then PRESET_PERMANENT_HOLD
        else PRESET_FOLLOW_SCHEDULE
      preset_modes := [PRESET_FOLLOW_SCHEDULE, PRESET_PERMANENT_HOLD, PRESET_OFF]
      fan_mode := none
      fan_modes := none
      locked := none
      supported_features := SUPPORT_TARGET_TEMPERATURE ||| SUPPORT_PRESET_MODE
      device_class := "temperature"
      data := dataV
      manufacturer := manu
      model := model
      sw_version := sw }
  pure (device, hp.2)

/-- The target/max/min setpoint triple of Dialect B, from the heating or the
cooling fields by current mode. -/
def climateSetpointsB (isHeating : Bool) (ther : JValue) : Except PyErr (ℚ × ℚ × ℚ) :=
  if isHeating then do
    let t ← pyDiv (← pyItem ther "HeatingSetpoint_x100") 100
    let mx ← pyDiv (← pyGetD ther "MaxHeatSetpoint_x100" (.jnum 4000)) 100
    let mn ← pyDiv (← pyGetD ther "MinHeatSetpoint_x100" (.jnum 500)) 100
    pure (t, mx, mn)
  else do
    let t ← pyDiv (← pyItem ther "CoolingSetpoint_x100") 100
    let mx ← pyDiv (← pyGetD ther "MaxCoolSetpoint_x100" (.jnum 4000)) 100
    let mn ← pyDiv (← pyGetD ther "MinCoolSetpoint_x100" (.jnum 500)) 100
    pure (t, mx, mn)

/-- Dialect B (sTherS + sComm + sFanS): the FC600-style record (gateway.py
lines 844-936). -/
def climateDialectB (ds ther scomm sfans model : JValue) (avail : Bool) (nm uid : String)
    (dataV manu sw : JValue) : Except PyErr ClimateDevice := do
  let sysMode ← pyItem ther "SystemMode"
  let isHeating := pyEq sysMode (.jnum 4)
  let fanRaw ← pyGetD sfans "FanMode" (.jnum 5)
  let hold ← pyItem scomm "HoldType"
  let running ← pyItem ther "RunningState"
  let (target, maxT, minT) ← climateSetpointsB isHeating ther
  let action : String :=
    if pyEq hold (.jnum 7) then CURRENT_HVAC_OFF
    else if pyEq running (.jnum 0) then CURRENT_HVAC_IDLE
    else if isHeating && pyEq running (.jnum 33) then CURRENT_HVAC_HEAT
    else if isHeating then CURRENT_HVAC_HEAT_IDLE
    else if pyEq running (.jnum 66) then CURRENT_HVAC_COOL
    else CURRENT_HVAC_COOL_IDLE
  let curTemp ← pyDiv (← pyItem ther "LocalTemperature_x100") 100
  let therUIS ← pyGetD ds "sTherUIS" (.jobj [])
  let lockKey ← pyGetD therUIS "LockKey" (.jnum 0)
  pure
    { available := avail
      name := nm
      unique_id := uid
      temperature_unit := TEMP_CELSIUS
      precision := (0.1 : ℚ)
      current_temperature := curTemp
      target_temperature := target
      max_temp := maxT
      min_temp := minT
      current_humidity := none
      hvac_mode :=
        if pyEq sysMode (.jnum 4) then HVAC_MODE_HEAT
        else if pyEq sysMode (.jnum 3) then HVAC_MODE_COOL
        else HVAC_MODE_AUTO
      hvac_action := action
      hvac_modes := [HVAC_MODE_HEAT, HVAC_MODE_COOL, HVAC_MODE_AUTO]
      preset_mode :=
        if pyEq hold (.jnum 7) then PRESET_OFF
        else if pyEq hold (.jnum 2) then PRESET_PERMANENT_HOLD
        else if pyEq hold (.jnum 10) then PRESET_ECO
        else if pyEq hold (.jnum 1) then PRESET_TEMPORARY_HOLD
        else PRESET_FOLLOW_SCHEDULE
      preset_modes := [PRESET_OFF, PRESET_PERMANENT_HOLD, PRESET_ECO,
        PRESET_TEMPORARY_HOLD, PRESET_FOLLOW_SCHEDULE]
      fan_mode := some
        (if pyEq fanRaw (.jnum 0) then FAN_MODE_OFF
         else if pyEq fanRaw (.jnum 3) then FAN_MODE_HIGH
         else if pyEq fanRaw (.jnum 2) then FAN_MODE_MEDIUM
         else if pyEq fanRaw (.jnum 1) then FAN_MODE_LOW
         else FAN_MODE_AUTO)
      fan_modes := some [FAN_MODE_AUTO, FAN_MODE_HIGH, FAN_MODE_MEDIUM, FAN_MODE_LOW, FAN_MODE_OFF]
      locked := some (pyEq lockKey (.jnum 1))
      supported_features := SUPPORT_TARGET_TEMPERATURE ||| SUPPORT_PRESET_MODE ||| SUPPORT_FAN_MODE
      device_class := "temperature"
      data := dataV
      manufacturer := manu
      model := model
      sw_version := sw }

/-- The battery child extracted from Status_d character 99 (gateway.py lines
942-972); the inner try swallows only ValueError and IndexError. -/
def climateBatteryChild (th model : JValue) (uid : String) (dev : ClimateDevice)
    (dataV : JValue) : Except PyErr (Option SensorDevice) := do
  let base := if pyTruthy th then th else .jobj []
  let statusD ← pyGetD base "Status_d" (.jstr "")
  if strSetMem BATTERY_OEM_MODELS model then do
    let n ← pyLen statusD
    if 99 < n then
      match (do
          let c ← pyIndex statusD 99
          pyInt c : Except PyErr Int) with
      | .error e =>
        if e = .valueError ∨ e = .indexError then pure none else Except.error e
      | .ok raw =>
        if 0 ≤ raw ∧ raw ≤ 5 then
          pure (some
            { available := dev.available
              name := dev.name ++ " Battery"
              unique_id := uid ++ "_battery"
              state := .jnum ((batteryLevelGet BATTERY_LEVEL_MAP raw.toNat 0 : Nat) : ℚ)
              unit_of_measurement := "%"
              device_class := "battery"
              data := dataV
              manufacturer := dev.manufacturer
              model := dev.model
              sw_version := dev.sw_version
              parent_unique_id := some uid
              entity_category := some "diagnostic" })
        else
          pure none
    else
      pure none
  else
    pure none

/-- The two aggregated error children built from the Error01..Error32 flags
(gateway.py lines 977-1025). -/
def climateErrorChildren (th : JValue) (uid : String) (dev : ClimateDevice)
    (dataV : JValue) : Except PyErr (BinarySensorDevice × BinarySensorDevice) := do
  let acc ← THERMOSTAT_ERROR_CODES.foldlM
    (fun (acc : List String × List String) kv => do
      let v ← pyGet th kv.1
      if pyEq v (.jnum 1) then
        if BATTERY_ERROR_CODES.contains kv.1 then
          pure (acc.1, acc.2 ++ [kv.2])
        else
          pure (acc.1 ++ [kv.2], acc.2)
      else
        pure acc)
    ([], [])
  pure
    ({ available := dev.available
       name := dev.name ++ " Problem"
       unique_id := uid ++ "_problem"
       is_on := !acc.1.isEmpty
       device_class := some "problem"
       data := dataV
       manufacturer := dev.manufacturer
       model := dev.model
       sw_version := dev.sw_version
       parent_unique_id := some uid
       entity_category := some "diagnostic"
       extra_state_attributes := some acc.1 },
     { available := dev.available
       name := dev.name ++ " Battery problem"
       unique_id := uid ++ "_battery_error"
       is_on := !acc.2.isEmpty
       device_class := some "battery"
       data := dataV
       manufacturer := dev.manufacturer
       model := dev.model
       sw_version := dev.sw_version
       parent_unique_id := some uid
       entity_category := some "diagnostic"
       extra_state_attributes := some acc.2 })

/-- The emissions of one decoded climate row. -/
structure ClimateRowOut where
  device : ClimateDevice
  humidity : Option SensorDevice
  battery : Option SensorDevice
  problem : Option BinarySensorDevice
  batteryError : Option BinarySensorDevice
deriving Repr

/-- One row of the climate decoder: sniff the dialect from which status block
is present, decode, then attach the battery and error children; none models
the skip of rows matching neither shape. -/
def climateRowTry (ds : JValue) (uid : String) : Except PyErr (Option ClimateRowOut) := do
  let model ← modelIdOf ds
  let th ← pyGet ds "sIT600TH"
  let ther ← pyGet ds "sTherS"
  let scomm ← pyGet ds "sComm"
  let sfans ← pyGet ds "sFanS"
  let avail ← availOf ds
  let nm ← deviceName ds "Unknown"
  let dataV ← pyItem ds "data"
  let manu ← manufacturerOf ds
  let sw ← swVersionOf ds
  match th with
  | .jnull =>
    match ther, scomm, sfans with
    | .jnull, _, _ => pure none
    | _, .jnull, _ => pure none
    | _, _, .jnull => pure none
    | therV, scommV, sfansV => do
      let device ← climateDialectB ds therV scommV sfansV model avail nm uid dataV manu sw
      let bat ← climateBatteryChild .jnull model uid device dataV
      pure (some ⟨device, none, bat, none, none⟩)
  | thV => do
    let (device, hum) ← climateDialectA thV model avail nm uid dataV manu sw
    let bat ← climateBatteryChild thV model uid device dataV
    let errs ← climateErrorChildren thV uid device dataV
    pure (some ⟨device, hum, bat, some errs.1, some errs.2⟩)

/-! ## Commands (gateway.py command methods) -/

/-- Python banker's rounding (`round`) on an exact rational. -/
def bankersRound (q : ℚ) : Int :=
  let f := ⌊q⌋
  let r := q - f
  if r < 1 / 2 then f
  else if 1 / 2 < r then f + 1
  else if f % 2 = 0 then f else f + 1

/-- IT600Gateway.round_to_half: `round(number * 2) / 2`. -/
def round_to_half (x : ℚ) : ℚ := (bankersRound (x * 2) : ℚ) / 2

/-- Truncation of an exact rational to an int, as Python `int()`. -/
def pyIntOfRat (q : ℚ) : Int := q.num / (q.den : Int)

/-- Lowercase hex character of a value below 16. -/
def hexChar : Nat → Char
  | 0 => '0'
  | 1 => '1'
  | 2 => '2'
  | 3 => '3'
  | 4 => '4'
  | 5 => '5'
  | 6 => '6'
  | 7 => '7'
  | 8 => '8'
  | 9 => '9'
  | 10 => 'a'
  | 11 => 'b'
  | 12 => 'c'
  | 13 => 'd'
  | 14 => 'e'
  | _ => 'f'

/-- Python `f"{n:02x}"` for a byte-sized value. -/
def hexByte2 (n : Nat) : String := String.mk [hexChar (n / 16 % 16), hexChar (n % 16)]

/-- The cached category maps a command method reads (the client state). -/
structure GatewayState where
  climate : List (String × ClimateDevice)
  switches : List (String × SwitchDevice)
  covers : List (String × CoverDevice)
deriving Repr

/-- One write request issued through _make_encrypted_request. -/
structure WriteRequest where
  command : String
  body : JValue
deriving Repr

/-- Build the standard write envelope around one device entry. -/
def writeEnvelope (entry : JValue) : WriteRequest :=
  ⟨"write", .jobj [("requestAttr", .jstr "write"), ("id", .jarr [entry])]⟩

/-- IT600Gateway.set_cover_position: validate, look up, else no-op; the
result lists the network requests performed. -/
def set_cover_position (st : GatewayState) (deviceId : String) (position : Int) :
    Except PyErr (List WriteRequest) :=
  if ¬(0 ≤ position ∧ position ≤ 100) then .error .valueError
  else
    match getEntry st.covers deviceId with
    | none => .ok []
    | some dev => .ok [writeEnvelope (.jobj [("data", dev.data),
        ("sLevelS", .jobj [("SetMoveToLevel", .jstr (hexByte2 position.toNat ++ "FFFF"))])])]

/-- IT600Gateway.open_cover. -/
def open_cover (st : GatewayState) (deviceId : String) : Except PyErr (List WriteRequest) :=
  set_cover_position st deviceId 100

/-- IT600Gateway.close_cover. -/
def close_cover (st : GatewayState) (deviceId : String) : Except PyErr (List WriteRequest) :=
  set_cover_position st deviceId 0

/-- IT600Gateway.turn_on_switch_device. -/
def turn_on_switch_device (st : GatewayState) (deviceId : String) :
    Except PyErr (List WriteRequest) :=
  match getEntry st.switches deviceId with
  | none => .ok []
  | some dev => .ok [writeEnvelope (.jobj [("data", dev.data),
      ("sOnOffS", .jobj [("SetOnOff", .jnum 1)])])]

/-- IT600Gateway.turn_off_switch_device. -/
def turn_off_switch_device (st : GatewayState) (deviceId : String) :
    Except PyErr (List WriteRequest) :=
  match getEntry st.switches deviceId with
  | none => .ok []
  | some dev => .ok [writeEnvelope (.jobj [("data", dev.data),
      ("sOnOffS", .jobj [("SetOnOff", .jnum 0)])])]

/-- IT600Gateway.set_climate_device_preset. -/
def set_climate_device_preset (st : GatewayState) (deviceId preset : String) :
    Except PyErr (List WriteRequest) :=
  match getEntry st.climate deviceId with
  | none => .ok []
  | some dev =>
    if pyEq dev.model (.jstr "FC600") then
      let hold : ℚ :=
        if preset = PRESET_OFF then 7
        else if preset = PRESET_ECO then 10
        else if preset = PRESET_PERMANENT_HOLD then 2
        else if preset = PRESET_TEMPORARY_HOLD then 1
        else 0
      .ok [writeEnvelope (.jobj [("data", dev.data),
        ("sComm", .jobj [("SetHoldType", .jnum hold)])])]
    else
      let hold : ℚ :=
        if preset = PRESET_OFF then 7
        else if preset = PRESET_PERMANENT_HOLD then 2
        else 0
      .ok [writeEnvelope (.jobj [("data", dev.data),
        ("sIT600TH", .jobj [("SetHoldType", .jnum hold)])])]

/-- IT600Gateway.set_climate_device_mode. -/
def set_climate_device_mode (st : GatewayState) (deviceId mode : String) :
    Except PyErr (List WriteRequest) :=
  match getEntry st.climate deviceId with
  | none => .ok []
  | some dev =>
    if pyEq dev.model (.jstr "FC600") then
      let sysMode : ℚ :=
        if mode = HVAC_MODE_HEAT then 4 else if mode = HVAC_MODE_COOL then 3 else 1
      .ok [writeEnvelope (.jobj [("data", dev.data),
        ("sTherS", .jobj [("SetSystemMode", .jnum sysMode)])])]
    else
      let hold : ℚ := if mode = HVAC_MODE_OFF then 7 else 0
      .ok [writeEnvelope (.jobj [("data", dev.data),
        ("sIT600TH", .jobj [("SetHoldType", .jnum hold)])])]

/-- IT600Gateway.set_climate_device_fan_mode. -/
def set_climate_device_fan_mode (st : GatewayState) (deviceId mode : String) :
    Except PyErr (List WriteRequest) :=
  match getEntry st.climate deviceId with
  | none => .ok []
  | some dev =>
    let fanVal : ℚ :=
      if mode = FAN_MODE_AUTO then 5
      else if mode = FAN_MODE_HIGH then 3
      else if mode = FAN_MODE_MEDIUM then 2
      else if mode = FAN_MODE_LOW then 1
      else 0
    .ok [writeEnvelope (.jobj [("data", dev.data),
      ("sFanS", .jobj [("FanMode", .jnum fanVal)])])]

/-- IT600Gateway.set_climate_device_locked. -/
def set_climate_device_locked (st : GatewayState) (deviceId : String) (locked : Bool) :
    Except PyErr (List WriteRequest) :=
  match getEntry st.climate deviceId with
  | none => .ok []
  | some dev =>
    .ok [writeEnvelope (.jobj [("data", dev.data),
      ("sTherUIS", .jobj [("LockKey", .jnum (if locked then 1 else 0))])])]

/-- IT600Gateway.set_climate_device_temperature: the setpoint is rounded to
the nearest half degree (banker's rounding on doubled value) and encoded as
integer hundredths. -/
def set_climate_device_temperature (st : GatewayState) (deviceId : String)
    (setpointCelsius : ℚ) : Except PyErr (List WriteRequest) :=
  match getEntry st.climate deviceId with
  | none => .ok []
  | some dev =>
    let value : ℚ := (pyIntOfRat (round_to_half setpointCelsius * 100) : ℚ)
    if pyEq dev.model (.jstr "FC600") then
      if dev.hvac_mode = HVAC_MODE_COOL then
        .ok [writeEnvelope (.jobj [("data", dev.data),
          ("sTherS", .jobj [("SetCoolingSetpoint_x100", .jnum value)])])]
      else
        .ok [writeEnvelope (.jobj [("data", dev.data),
          ("sTherS", .jobj [("SetHeatingSetpoint_x100", .jnum value)])])]
    else
      .ok [writeEnvelope (.jobj [("data", dev.data),
        ("sIT600TH", .jobj [("SetHeatingSetpoint_x100", .jnum value)])])]

/-! ## Encrypted transport chokepoint (gateway._make_encrypted_request) -/

/-- The typed client errors (exceptions.py). -/
inductive It600Error where
  | connection (msg : String)
  | authentication (msg : String)
  | command (msg : String)
deriving DecidableEq, Repr

/-- True for the ConnectionError variant. -/
def It600Error.isConnectionError : It600Error → Bool
  | .connection _ => true
  | _ => false

/-- True for the CommandError variant. -/
def It600Error.isCommandError : It600Error → Bool
  | .command _ => true
  | _ => false

/-- What the network layer did for one request: timed out, failed to connect,
returned a raw body, or raised some other exception. -/
inductive HttpOutcome where
  | timeout
  | connectorError
  | response (raw : List Byte)
  | otherExc
deriving Repr

/-- The response pipeline of _make_encrypted_request after the POST: decrypt
with the client's cipher, parse JSON (the host codec and json.loads stage is
the loads parameter), demand status == "success"; TimeoutError and
ClientConnectorError map to ConnectionError and every other exception is
wrapped as CommandError. -/
def make_encrypted_request (key : List Byte)
    (loads : List Byte → Except PyErr JValue) (command : String)
    (outcome : HttpOutcome) : Except It600Error JValue :=
  match outcome with
  | .timeout => .error (.connection "Timeout communicating with iT600 gateway")
  | .connectorError => .error (.connection "Cannot reach iT600 gateway")
  | .otherExc => .error (.command "Unknown error communicating with iT600 gateway")
  | .response raw =>
    match decryptWithKey key raw with
    | .error _ => .error (.command "Unknown error communicating with iT600 gateway")
    | .ok plain =>
      match loads plain with
      | .error _ => .error (.command "Unknown error communicating with iT600 gateway")
      | .ok result =>
        match pyGet result "status" with
        | .error _ => .error (.command "Unknown error communicating with iT600 gateway")
        | .ok st =>
          if pyEq st (.jstr "success") then .ok result
          else .error (.command ("Gateway rejected " ++ command))

/-! ## Claim witness fixtures -/

/-- A minimal standalone-sensor row carrying a battery voltage. -/
def c10row : JValue := .jobj
  [("data", .jobj [("UniID", .jstr "s1")]),
   ("sTempS", .jobj [("MeasuredValue_x100", .jnum 2100)]),
   ("sPowerS", .jobj [("BatteryVoltage_x10", .jnum 29)])]

/-- The temperature record decoded from c10row. -/
def c10dev : SensorDevice :=
  { available := true
    name := "Unknown"
    unique_id := "s1_temp"
    state := .jnum 21
    unit_of_measurement := TEMP_CELSIUS
    device_class := "temperature"
    data := .jobj [("UniID", .jstr "s1")]
    manufacturer := .jstr "SALUS"
    model := .jnull
    sw_version := .jnull }

/-- The battery child decoded from c10row. -/
def c10bat : SensorDevice :=
  { available := true
    name := "Unknown Battery"
    unique_id := "s1_battery"
    state := .jnum 100
    unit_of_measurement := "%"
    device_class := "battery"
    data := .jobj [("UniID", .jstr "s1")]
    manufacturer := .jstr "SALUS"
    model := .jnull
    sw_version := .jnull
    parent_unique_id := some "s1"
    entity_category := some "diagnostic" }


/-- A Dialect B thermostat block in heating mode, actively heating. -/
def c3ther : JValue := .jobj
  [("SystemMode", .jnum 4), ("RunningState", .jnum 33),
   ("LocalTemperature_x100", .jnum 2150), ("HeatingSetpoint_x100", .jnum 2200)]

/-- The matching communication block with no hold. -/
def c3scomm : JValue := .jobj [("HoldType", .jnum 0)]

/-- The record Dialect B decodes from the blocks above. -/
def c3dev : ClimateDevice :=
  { available := true
    name := "FC"
    unique_id := "c3"
    temperature_unit := TEMP_CELSIUS
    precision := (0.1 : ℚ)
    current_temperature := (43 : ℚ) / 2
    target_temperature := 22
    max_temp := 40
    min_temp := 5
    current_humidity := none
    hvac_mode := HVAC_MODE_HEAT
    hvac_action := CURRENT_HVAC_HEAT
    hvac_modes := [HVAC_MODE_HEAT, HVAC_MODE_COOL, HVAC_MODE_AUTO]
    preset_mode := PRESET_FOLLOW_SCHEDULE
    preset_modes := [PRESET_OFF, PRESET_PERMANENT_HOLD, PRESET_ECO,
      PRESET_TEMPORARY_HOLD, PRESET_FOLLOW_SCHEDULE]
    fan_mode := some FAN_MODE_AUTO
    fan_modes := some [FAN_MODE_AUTO, FAN_MODE_HIGH, FAN_MODE_MEDIUM, FAN_MODE_LOW, FAN_MODE_OFF]
    locked := some false
    supported_features := 25
    device_class := "temperature"
    data := .jnull
    manufacturer := .jnull
    model := .jnull
    sw_version := .jnull }

/-- A binary-sensor row whose alarm-zone block carries both the state and the
low-battery flag. -/
def c7row : JValue := .jobj
  [("data", .jobj [("UniID", .jstr "b1")]),
   ("sIASZS", .jobj [("ErrorIASZSAlarmed1", .jnum 1), ("ErrorIASZSLowBattery", .jnum 1)])]

/-- The main record decoded from c7row. -/
def c7dev : BinarySensorDevice :=
  { available := true
    name := "Unknown"
    unique_id := "b1"
    is_on := true
    device_class := none
    data := .jobj [("UniID", .jstr "b1")]
    manufacturer := .jstr "SALUS"
    model := .jnull
    sw_version := .jnull }

/-- A binary-sensor row like c7row whose power block is a string, so the
power-flag read raises after the main record is inserted. -/
def c7badrow : JValue := .jobj
  [("data", .jobj [("UniID", .jstr "b1")]),
   ("sIASZS", .jobj [("ErrorIASZSAlarmed1", .jnum 1), ("ErrorIASZSLowBattery", .jnum 1)]),
   ("sPowerS", .jstr "x")]

/-- A status string with digit 3 at offset 99. -/
def c1s : String := String.mk (List.replicate 99 (Char.ofNat 48) ++ [Char.ofNat 51])

/-- A thermostat block carrying c1s as its status string. -/
def c1th : JValue := .jobj [("Status_d", .jstr c1s)]

/-- A minimal climate record to attach the battery child to. -/
def c1dev : ClimateDevice :=
  { available := true
    name := "T"
    unique_id := "t1"
    temperature_unit := TEMP_CELSIUS
    precision := (0.1 : ℚ)
    current_temperature := 20
    target_temperature := 21
    max_temp := 35
    min_temp := 5
    current_humidity := none
    hvac_mode := HVAC_MODE_AUTO
    hvac_action := CURRENT_HVAC_IDLE
    hvac_modes := [HVAC_MODE_OFF, HVAC_MODE_HEAT, HVAC_MODE_AUTO]
    preset_mode := PRESET_FOLLOW_SCHEDULE
    preset_modes := [PRESET_FOLLOW_SCHEDULE, PRESET_PERMANENT_HOLD, PRESET_OFF]
    fan_mode := none
    fan_modes := none
    locked := none
    supported_features := 17
    device_class := "temperature"
    data := .jnull
    manufacturer := .jnull
    model := .jstr "SQ610RF"
    sw_version := .jnull }

/-- A Dialect A thermostat block with a humidity-capable model and a sunny
setpoint. -/
def c4th : JValue := .jobj
  [("SunnySetpoint_x100", .jnum 45), ("HoldType", .jnum 0), ("RunningState", .jnum 0),
   ("LocalTemperature_x100", .jnum 2000), ("HeatingSetpoint_x100", .jnum 2100)]

/-- The climate record Dialect A decodes from c4th. -/
def c4dev : ClimateDevice :=
  { available := true
    name := "T"
    unique_id := "a1"
    temperature_unit := TEMP_CELSIUS
    precision := (0.1 : ℚ)
    current_temperature := 20
    target_temperature := 21
    max_temp := 35
    min_temp := 5
    current_humidity := some 45
    hvac_mode := HVAC_MODE_AUTO
    hvac_action := CURRENT_HVAC_IDLE
    hvac_modes := [HVAC_MODE_OFF, HVAC_MODE_HEAT, HVAC_MODE_AUTO]
    preset_mode := PRESET_FOLLOW_SCHEDULE
    preset_modes := [PRESET_FOLLOW_SCHEDULE, PRESET_PERMANENT_HOLD, PRESET_OFF]
    fan_mode := none
    fan_modes := none
    locked := none
    supported_features := 17
    device_class := "temperature"
    data := .jnull
    manufacturer := .jnull
    model := .jstr "SQ610"
    sw_version := .jnull }

/-- The humidity child Dialect A decodes from c4th. -/
def c4hum : Option SensorDevice := some
  { available := true
    name := "T Humidity"
    unique_id := "a1_humidity"
    state := .jnum 45
    unit_of_measurement := "%"
    device_class := "humidity"
    data := .jnull
    manufacturer := .jnull
    model := .jstr "SQ610"
    sw_version := .jnull
    parent_unique_id := some "a1"
    entity_category := none }

/-- An arbitrary 32-byte key for the transport witness. -/
def c8key : List Byte := List.replicate 32 0

/-- A loads stage returning a non-success status document. -/
def c8loads : List Byte → Except PyErr JValue :=
  fun _ => .ok (.jobj [("status", .jstr "fail")])

/-- A cover row reporting a raw level of 150. -/
def c5row : JValue := .jobj
  [("data", .jobj [("UniID", .jstr "cv1")]),
   ("sButtonS", .jobj [("Mode", .jnum 1)]),
   ("sLevelS", .jobj [("CurrentLevel", .jnum 150)])]

/-- The record decoded from c5row: the 150 passes through unclamped. -/
def c5dev : CoverDevice :=
  { available := true
    name := "Unknown"
    unique_id := "cv1"
    current_cover_position := .jnum 150
    is_opening := none
    is_closing := none
    is_closed := false
    supported_features := 7
    device_class := none
    data := .jobj [("UniID", .jstr "cv1")]
    manufacturer := .jstr "SALUS"
    model := .jnull
    sw_version := .jnull }

/-- A cover row at level 75 moving to hex target 50 (80 decimal). -/
def c5wrow : JValue := .jobj
  [("data", .jobj [("UniID", .jstr "cv2")]),
   ("sButtonS", .jobj [("Mode", .jnum 1)]),
   ("sLevelS", .jobj [("CurrentLevel", .jnum 75), ("MoveToLevel_f", .jstr "50ff")])]

/-- The record decoded from c5wrow. -/
def c5wdev : CoverDevice :=
  { available := true
    name := "Unknown"
    unique_id := "cv2"
    current_cover_position := .jnum 75
    is_opening := some true
    is_closing := some false
    is_closed := false
    supported_features := 7
    device_class := none
    data := .jobj [("UniID", .jstr "cv2")]
    manufacturer := .jstr "SALUS"
    model := .jnull
    sw_version := .jnull }

/-- A switch row with UniID but no Endpoint in its data block. -/
def c6bad : JValue := .jobj [("data", .jobj [("UniID", .jstr "s1")])]

/-- A well-formed switch row. -/
def c6good : JValue := .jobj
  [("data", .jobj [("UniID", .jstr "s1"), ("Endpoint", .jnum 1)]),
   ("sOnOffS", .jobj [("OnOff", .jnum 1)])]

/-- A switch row lacking UniID, which the pass skips before the boundary. -/
def c6skip : JValue := .jobj [("data", .jobj [("Endpoint", .jnum 9)])]

/-- The switch record decoded from c6good. -/
def c6dev : SwitchDevice :=
  { available := true
    name := "s1_1"
    unique_id := "s1_1"
    is_on := true
    device_class := "switch"
    data := .jobj [("UniID", .jstr "s1"), ("Endpoint", .jnum 1)]
    manufacturer := .jstr "SALUS"
    model := .jnull
    sw_version := .jnull }

/-! ## Claims -/

/-- Ok-inversion of one Except bind. -/
theorem exbind_ok {e a b : Type} (x : Except e a) (f : a → Except e b) (c : b)
    (h : x >>= f = .ok c) : ∃ v, x = .ok v ∧ f v = .ok c := by
  cases x with
  | error err => simp [Bind.bind, Except.bind] at h
  | ok v => exact ⟨v, rfl, by simpa [Bind.bind, Except.bind] using h⟩

theorem exok_bind {e a b : Type} (v : a) (f : a → Except e b) :
    (Except.ok v >>= f) = f v := rfl

/-- The voltage helper is total onto the four curve percentages. -/
theorem voltagePctTotal (v : ℚ) (model : JValue) :
    ∃ p, voltageToBatteryPct v model = some p ∧ (p = 0 ∨ p = 25 ∨ p = 50 ∨ p = 100) := by
  unfold voltageToBatteryPct
  set curve := if strSetMem WINDOW_VOLTAGE_MODELS model then "window"
    else if strSetMem DOOR_VOLTAGE_MODELS model then "door"
    else if strSetMem ENERGY_METER_VOLTAGE_MODELS model then "energy_meter"
    else "door" with hcurve
  have hcases : curve = "window" ∨ curve = "door" ∨ curve = "energy_meter" := by
    rw [hcurve]
    split
    · exact Or.inl rfl
    · split
      · exact Or.inr (Or.inl rfl)
      · split
        · exact Or.inr (Or.inr rfl)
        · exact Or.inr (Or.inl rfl)
  rcases hcases with h | h | h <;> rw [h] <;>
    refine ⟨_, rfl, ?_⟩ <;> simp only [scanThresholds] <;> split_ifs <;> norm_num

/-- C2: For every string text, including the empty string, and every shared
secret string, a single cipher instance built from that secret (the key
derived once by it600Key) satisfies decrypt(encrypt(text)) == text; stated
over the UTF-8 bytes of the text, whose transcoding back to str is the host
codec's inverse. -/
theorem c2_cipher_roundtrip (euid text : String) :
    decryptIT600 euid (encryptIT600 euid (strUtf8 text)) = .ok (strUtf8 text) :=
  decryptWithKey_encryptWithKey (it600Key euid) (strUtf8 text)

/-- C9: Every command method called with a device id absent from its
category's cached map (for set_cover_position, with a position inside
[0, 100]) returns normally without raising and performs no network request;
the command methods never touch the cached maps. -/
theorem c9_unknown_device_noop (st : GatewayState) (deviceId : String) (pos : Int)
    (preset mode fan : String) (locked : Bool) (sp : ℚ)
    (hcov : getEntry st.covers deviceId = none)
    (hsw : getEntry st.switches deviceId = none)
    (hcl : getEntry st.climate deviceId = none)
    (hpos : 0 ≤ pos ∧ pos ≤ 100) :
    set_cover_position st deviceId pos = .ok [] ∧
    open_cover st deviceId = .ok [] ∧
    close_cover st deviceId = .ok [] ∧
    turn_on_switch_device st deviceId = .ok [] ∧
    turn_off_switch_device st deviceId = .ok [] ∧
    set_climate_device_preset st deviceId preset = .ok [] ∧
    set_climate_device_mode st deviceId mode = .ok [] ∧
    set_climate_device_fan_mode st deviceId fan = .ok [] ∧
    set_climate_device_locked st deviceId locked = .ok [] ∧
    set_climate_device_temperature st deviceId sp = .ok [] := by
  refine ⟨?_, ?_, ?_, ?_, ?_, ?_, ?_, ?_, ?_, ?_⟩ <;>
    simp [set_cover_position, open_cover, close_cover, turn_on_switch_device,
      turn_off_switch_device, set_climate_device_preset, set_climate_device_mode,
      set_climate_device_fan_mode, set_climate_device_locked,
      set_climate_device_temperature, hcov, hsw, hcl, hpos.1, hpos.2]

/-- C9 witness: the no-op behavior at a concrete empty state. -/
theorem c9_unknown_device_noop_witness :
    turn_on_switch_device ⟨[], [], []⟩ "nonexistent" = .ok [] :=
  (c9_unknown_device_noop ⟨[], [], []⟩ "nonexistent" 50 "Off" "off" "auto" true 20
    rfl rfl rfl (by norm_num)).2.2.2.1

/-- C10: the voltage-to-battery-percent helper is total and never returns the
no-mapping result: for every voltage and model it yields a value in
{0, 25, 50, 100}; consequently every decoded standalone-sensor row carrying a
non-null battery-voltage field emits a battery child record regardless of model. -/
theorem c10_voltage_pct_total_and_battery_emitted :
    (∀ (v : ℚ) (model : JValue),
      ∃ p, voltageToBatteryPct v model = some p ∧ (p = 0 ∨ p = 25 ∨ p = 50 ∨ p = 100)) ∧
    (∀ (ds : JValue) (uid : String) (dev : SensorDevice) (hum bat : Option SensorDevice)
      (powerS vRaw : JValue),
      sensorRowTry ds uid = .ok (some (dev, hum, bat)) →
      pyGetD ds "sPowerS" (.jobj []) = .ok powerS →
      pyGet powerS "BatteryVoltage_x10" = .ok vRaw →
      vRaw ≠ .jnull →
      bat.isSome = true) := by
  refine ⟨voltagePctTotal, ?_⟩
  intro ds uid dev hum bat powerS vRaw hok hpw hvr hnn
  rw [sensorRowTry] at hok
  obtain ⟨tempS, h1, hok⟩ := exbind_ok _ _ _ hok
  obtain ⟨tv, h2, hok⟩ := exbind_ok _ _ _ hok
  split at hok
  · simp [pure, Except.pure] at hok
  · obtain ⟨model, h3, hok⟩ := exbind_ok _ _ _ hok
    obtain ⟨avail, h4, hok⟩ := exbind_ok _ _ _ hok
    obtain ⟨nm, h5, hok⟩ := exbind_ok _ _ _ hok
    obtain ⟨manu, h6, hok⟩ := exbind_ok _ _ _ hok
    obtain ⟨sw, h7, hok⟩ := exbind_ok _ _ _ hok
    obtain ⟨dataV, h8, hok⟩ := exbind_ok _ _ _ hok
    obtain ⟨tq, h9, hok⟩ := exbind_ok _ _ _ hok
    obtain ⟨relHum, h10, hok⟩ := exbind_ok _ _ _ hok
    obtain ⟨humidityRaw, h11, hok⟩ := exbind_ok _ _ _ hok
    obtain ⟨humv, h12, hok⟩ := exbind_ok _ _ _ hok
    obtain ⟨powerS2, h13, hok⟩ := exbind_ok _ _ _ hok
    rw [hpw] at h13
    injection h13 with h13e
    subst h13e
    obtain ⟨vRaw2, h14, hok⟩ := exbind_ok _ _ _ hok
    rw [hvr] at h14
    injection h14 with h14e
    subst h14e
    obtain ⟨batv, h15, hok⟩ := exbind_ok _ _ _ hok
    simp only [pure, Except.pure, Except.ok.injEq, Option.some.injEq, Prod.mk.injEq] at hok
    obtain ⟨-, -, hbat⟩ := hok
    subst hbat
    unfold sensorBatteryChild at h15
    split at h15
    · exact absurd rfl hnn
    · obtain ⟨voltage, hv, h15⟩ := exbind_ok _ _ _ h15
      obtain ⟨p, hp, -⟩ := voltagePctTotal voltage model
      simp only [hp, pure, Except.pure, Except.ok.injEq] at h15
      rw [← h15]
      rfl

/-- C10 witness: the hypotheses hold of the concrete row c10row and the
battery child is emitted. -/
theorem c10_voltage_pct_total_and_battery_emitted_witness :
    sensorRowTry c10row "s1" = .ok (some (c10dev, none, some c10bat)) ∧
    (some c10bat).isSome = true :=
  ⟨by with_unfolding_all rfl,
   c10_voltage_pct_total_and_battery_emitted.2 c10row "s1" c10dev none (some c10bat)
     (.jobj [("BatteryVoltage_x10", .jnum 29)]) (.jnum 29)
     (by with_unfolding_all rfl) rfl rfl (fun h => JValue.noConfusion h)⟩

/-- C3: in Dialect B the hvac action of the emitted record is computed exactly
as: hold 7 gives off; else running 0 gives idle; else heating selected
(system mode 4) with running 33 gives heating, heating selected otherwise
gives heat-idle; cooling with running 66 gives cooling, else cool-idle. -/
theorem c3_dialectB_hvac_action (ds ther scomm sfans model : JValue) (avail : Bool)
    (nm uid : String) (dataV manu sw : JValue) (dev : ClimateDevice)
    (sysMode hold running : JValue)
    (hok : climateDialectB ds ther scomm sfans model avail nm uid dataV manu sw = .ok dev)
    (hsys : pyItem ther "SystemMode" = .ok sysMode)
    (hhold : pyItem scomm "HoldType" = .ok hold)
    (hrun : pyItem ther "RunningState" = .ok running) :
    dev.hvac_action =
      (if pyEq hold (.jnum 7) then CURRENT_HVAC_OFF
       else if pyEq running (.jnum 0) then CURRENT_HVAC_IDLE
       else if pyEq sysMode (.jnum 4) && pyEq running (.jnum 33) then CURRENT_HVAC_HEAT
       else if pyEq sysMode (.jnum 4) then CURRENT_HVAC_HEAT_IDLE
       else if pyEq running (.jnum 66) then CURRENT_HVAC_COOL
       else CURRENT_HVAC_COOL_IDLE) := by
  rw [climateDialectB] at hok
  obtain ⟨sysMode2, h1, hok⟩ := exbind_ok _ _ _ hok
  rw [hsys] at h1
  injection h1 with h1e
  subst h1e
  obtain ⟨fanRaw, h2, hok⟩ := exbind_ok _ _ _ hok
  obtain ⟨hold2, h3, hok⟩ := exbind_ok _ _ _ hok
  rw [hhold] at h3
  injection h3 with h3e
  subst h3e
  obtain ⟨running2, h4, hok⟩ := exbind_ok _ _ _ hok
  rw [hrun] at h4
  injection h4 with h4e
  subst h4e
  obtain ⟨⟨target, maxT, minT⟩, h5, hok⟩ := exbind_ok _ _ _ hok
  obtain ⟨ct, h6, hok⟩ := exbind_ok _ _ _ hok
  obtain ⟨curTemp, h7, hok⟩ := exbind_ok _ _ _ hok
  obtain ⟨therUIS, h8, hok⟩ := exbind_ok _ _ _ hok
  obtain ⟨lockKey, h9, hok⟩ := exbind_ok _ _ _ hok
  simp only [pure, Except.pure, Except.ok.injEq] at hok
  subst hok
  rfl

/-- C3 witness: an actively heating Dialect B row decodes with action
"heating", as the claim formula prescribes. -/
theorem c3_dialectB_hvac_action_witness :
    climateDialectB (.jobj []) c3ther c3scomm (.jobj []) .jnull true "FC" "c3"
      .jnull .jnull .jnull = .ok c3dev ∧
    c3dev.hvac_action = CURRENT_HVAC_HEAT := by
  refine ⟨by with_unfolding_all rfl, ?_⟩
  have h := c3_dialectB_hvac_action (.jobj []) c3ther c3scomm (.jobj []) .jnull true
    "FC" "c3" .jnull .jnull .jnull c3dev (.jnum 4) (.jnum 0) (.jnum 33)
    (by with_unfolding_all rfl) rfl rfl rfl
  rw [h]
  with_unfolding_all rfl

/-- C1: for a thermostat row whose model is in the battery allow-list and
whose status string yields a digit d with 0 <= d <= 5 at offset 99, the
battery child with unique id uid_battery and state 20*d is emitted; an
out-of-range digit, a non-digit character, a short status string, or a model
outside the allow-list each yield no battery record. -/
theorem c1_climate_battery_digit (th model : JValue) (uid : String) (dev : ClimateDevice)
    (dataV : JValue) :
    (∀ (raw : Int) (statusD : JValue) (n : Nat),
      strSetMem BATTERY_OEM_MODELS model = true →
      pyGetD (if pyTruthy th then th else .jobj []) "Status_d" (.jstr "") = .ok statusD →
      pyLen statusD = .ok n →
      99 < n →
      (pyIndex statusD 99 >>= pyInt) = .ok raw →
      0 ≤ raw → raw ≤ 5 →
      climateBatteryChild th model uid dev dataV = .ok (some
        { available := dev.available
          name := dev.name ++ " Battery"
          unique_id := uid ++ "_battery"
          state := .jnum ((20 * raw.toNat : Nat) : ℚ)
          unit_of_measurement := "%"
          device_class := "battery"
          data := dataV
          manufacturer := dev.manufacturer
          model := dev.model
          sw_version := dev.sw_version
          parent_unique_id := some uid
          entity_category := some "diagnostic" })) ∧
    (∀ (raw : Int) (statusD : JValue) (n : Nat),
      pyGetD (if pyTruthy th then th else .jobj []) "Status_d" (.jstr "") = .ok statusD →
      pyLen statusD = .ok n →
      99 < n →
      (pyIndex statusD 99 >>= pyInt) = .ok raw →
      ¬(0 ≤ raw ∧ raw ≤ 5) →
      climateBatteryChild th model uid dev dataV = .ok none) ∧
    (∀ (statusD : JValue) (n : Nat),
      pyGetD (if pyTruthy th then th else .jobj []) "Status_d" (.jstr "") = .ok statusD →
      pyLen statusD = .ok n →
      99 < n →
      (pyIndex statusD 99 >>= pyInt) = .error .valueError →
      climateBatteryChild th model uid dev dataV = .ok none) ∧
    (∀ (statusD : JValue) (n : Nat),
      pyGetD (if pyTruthy th then th else .jobj []) "Status_d" (.jstr "") = .ok statusD →
      pyLen statusD = .ok n →
      ¬(99 < n) →
      climateBatteryChild th model uid dev dataV = .ok none) ∧
    (∀ (statusD : JValue),
      strSetMem BATTERY_OEM_MODELS model = false →
      pyGetD (if pyTruthy th then th else .jobj []) "Status_d" (.jstr "") = .ok statusD →
      climateBatteryChild th model uid dev dataV = .ok none) := by
  refine ⟨?_, ?_, ?_, ?_, ?_⟩
  · intro raw statusD n hmem hS hn h99 hraw h0 h5
    unfold climateBatteryChild
    simp only [hS, exok_bind, hmem, if_true, hn, if_pos h99, hraw]
    rw [if_pos ⟨h0, h5⟩]
    have htab : batteryLevelGet BATTERY_LEVEL_MAP raw.toNat 0 = 20 * raw.toNat := by
      have hd : raw.toNat ≤ 5 := by omega
      set d := raw.toNat
      interval_cases d <;> rfl
    rw [htab]
    rfl
  · intro raw statusD n hS hn h99 hraw hbad
    unfold climateBatteryChild
    simp only [hS, exok_bind, hn, if_pos h99, hraw]
    rw [if_neg hbad]
    split
    · rfl
    · rfl
  · intro statusD n hS hn h99 hraw
    unfold climateBatteryChild
    simp only [hS, exok_bind, hn, if_pos h99, hraw, true_or, if_true]
    split
    · rfl
    · rfl
  · intro statusD n hS hn h99
    unfold climateBatteryChild
    simp only [hS, exok_bind, hn, if_neg h99]
    split
    · rfl
    · rfl
  · intro statusD hmem hS
    unfold climateBatteryChild
    simp only [hS, exok_bind, hmem]
    rfl

/-- C1 witness: digit 3 at offset 99 of an SQ610RF row maps to a 60 percent
battery child. -/
theorem c1_climate_battery_digit_witness :
    climateBatteryChild c1th (.jstr "SQ610RF") "t1" c1dev .jnull = .ok (some
      { available := c1dev.available
        name := c1dev.name ++ " Battery"
        unique_id := "t1" ++ "_battery"
        state := .jnum ((20 * (3 : Int).toNat : Nat) : ℚ)
        unit_of_measurement := "%"
        device_class := "battery"
        data := .jnull
        manufacturer := c1dev.manufacturer
        model := c1dev.model
        sw_version := c1dev.sw_version
        parent_unique_id := some "t1"
        entity_category := some "diagnostic" }) :=
  (c1_climate_battery_digit c1th (.jstr "SQ610RF") "t1" c1dev .jnull).1
    3 (.jstr c1s) 100 rfl rfl rfl (by norm_num) rfl (by norm_num) (by norm_num)

/-- C4: for a Dialect A row whose humidity gate holds (the hex status bit
equals 1 or the model contains SQ610 without RFNH) and whose sunny-setpoint
field is non-null with value q, the emitted record carries current_humidity q
and a humidity child with unique id uid_humidity parent-linked to the
thermostat. -/
theorem c4_dialectA_humidity (th model : JValue) (avail : Bool) (nm uid : String)
    (dataV manu sw : JValue) (dev : ClimateDevice) (hum : Option SensorDevice)
    (statusD sv : JValue) (hc : Int) (mh : Bool) (q : ℚ)
    (hok : climateDialectA th model avail nm uid dataV manu sw = .ok (dev, hum))
    (hS : pyGetD th "Status_d" (.jstr "") = .ok statusD)
    (hhc : climateHeatingCtrl statusD = .ok hc)
    (hmh : climateModelHasHumidity (if pyTruthy model then model else .jstr "") = .ok mh)
    (hgate : hc = 1 ∨ mh = true)
    (hsv : pyGet th "SunnySetpoint_x100" = .ok sv)
    (hnn : sv ≠ .jnull)
    (hq : pyFloat sv = .ok q) :
    dev.current_humidity = some q ∧
    hum = some
      { available := avail
        name := nm ++ " Humidity"
        unique_id := uid ++ "_humidity"
        state := .jnum q
        unit_of_measurement := "%"
        device_class := "humidity"
        data := dataV
        manufacturer := manu
        model := model
        sw_version := sw
        parent_unique_id := some uid
        entity_category := none } := by
  rw [climateDialectA] at hok
  obtain ⟨statusD2, h1, hok⟩ := exbind_ok _ _ _ hok
  rw [hS] at h1
  injection h1 with h1e
  subst h1e
  obtain ⟨hc2, h2, hok⟩ := exbind_ok _ _ _ hok
  rw [hhc] at h2
  injection h2 with h2e
  subst h2e
  obtain ⟨mh2, h3, hok⟩ := exbind_ok _ _ _ hok
  rw [hmh] at h3
  injection h3 with h3e
  subst h3e
  obtain ⟨hp, h4, hok⟩ := exbind_ok _ _ _ hok
  have hg : decide (hc = 1 ∨ mh = true) = true := by
    rcases hgate with h | h
    · exact decide_eq_true (Or.inl h)
    · exact decide_eq_true (Or.inr h)
  rw [climateHumidityPair] at h4
  rw [hg] at h4
  rw [if_pos rfl] at h4
  obtain ⟨sv2, h5, h4⟩ := exbind_ok _ _ _ h4
  rw [hsv] at h5
  injection h5 with h5e
  subst h5e
  split at h4
  · exact absurd rfl hnn
  · obtain ⟨q2, h6, h4⟩ := exbind_ok _ _ _ h4
    rw [hq] at h6
    injection h6 with h6e
    subst h6e
    simp only [pure, Except.pure, Except.ok.injEq] at h4
    subst h4
    obtain ⟨hold, h7, hok⟩ := exbind_ok _ _ _ hok
    obtain ⟨running, h8, hok⟩ := exbind_ok _ _ _ hok
    obtain ⟨lt, h9, hok⟩ := exbind_ok _ _ _ hok
    obtain ⟨curTemp, h10, hok⟩ := exbind_ok _ _ _ hok
    obtain ⟨hs, h11, hok⟩ := exbind_ok _ _ _ hok
    obtain ⟨target, h12, hok⟩ := exbind_ok _ _ _ hok
    obtain ⟨mxr, h13, hok⟩ := exbind_ok _ _ _ hok
    obtain ⟨maxT, h14, hok⟩ := exbind_ok _ _ _ hok
    obtain ⟨mnr, h15, hok⟩ := exbind_ok _ _ _ hok
    obtain ⟨minT, h16, hok⟩ := exbind_ok _ _ _ hok
    obtain ⟨action, h17, hok⟩ := exbind_ok _ _ _ hok
    simp only [pure, Except.pure, Except.ok.injEq, Prod.mk.injEq] at hok
    obtain ⟨hdev, hhum⟩ := hok
    subst hdev
    subst hhum
    exact ⟨rfl, rfl⟩

/-- C4 witness: the SQ610 fallback gate holds of the concrete row, the record
carries humidity 45 and the child is emitted parent-linked. -/
theorem c4_dialectA_humidity_witness :
    climateDialectA c4th (.jstr "SQ610") true "T" "a1" .jnull .jnull .jnull =
      .ok (c4dev, c4hum) ∧
    c4dev.current_humidity = some 45 ∧
    c4hum = some
      { available := true
        name := "T" ++ " Humidity"
        unique_id := "a1" ++ "_humidity"
        state := .jnum 45
        unit_of_measurement := "%"
        device_class := "humidity"
        data := .jnull
        manufacturer := .jnull
        model := .jstr "SQ610"
        sw_version := .jnull
        parent_unique_id := some "a1"
        entity_category := none } :=
  ⟨by with_unfolding_all rfl,
   c4_dialectA_humidity c4th (.jstr "SQ610") true "T" "a1" .jnull .jnull .jnull
     c4dev c4hum (.jstr "") (.jnum 45) 0 true 45
     (by with_unfolding_all rfl) rfl rfl rfl (Or.inr rfl) rfl
     (fun h => JValue.noConfusion h) rfl⟩

/-- C8: the transport chokepoint maps a timeout and a connector failure to
ConnectionError, wraps a decryption failure, a parse failure, a missing or
non-dict document and any other unexpected exception as CommandError, rejects
a document without status success with CommandError, and in every case the
outcome is success or one of those two typed errors. -/
theorem c8_transport_error_taxonomy (key : List Byte)
    (loads : List Byte → Except PyErr JValue) (command : String) :
    (make_encrypted_request key loads command .timeout =
      .error (.connection "Timeout communicating with iT600 gateway")) ∧
    (make_encrypted_request key loads command .connectorError =
      .error (.connection "Cannot reach iT600 gateway")) ∧
    (make_encrypted_request key loads command .otherExc =
      .error (.command "Unknown error communicating with iT600 gateway")) ∧
    (∀ raw e, decryptWithKey key raw = .error e →
      make_encrypted_request key loads command (.response raw) =
        .error (.command "Unknown error communicating with iT600 gateway")) ∧
    (∀ raw plain e, decryptWithKey key raw = .ok plain → loads plain = .error e →
      make_encrypted_request key loads command (.response raw) =
        .error (.command "Unknown error communicating with iT600 gateway")) ∧
    (∀ raw plain result st, decryptWithKey key raw = .ok plain →
      loads plain = .ok result → pyGet result "status" = .ok st →
      pyEq st (.jstr "success") = false →
      make_encrypted_request key loads command (.response raw) =
        .error (.command ("Gateway rejected " ++ command))) ∧
    (∀ outcome, (∃ v, make_encrypted_request key loads command outcome = .ok v) ∨
      (∃ m, make_encrypted_request key loads command outcome = .error (.connection m)) ∨
      (∃ m, make_encrypted_request key loads command outcome = .error (.command m))) := by
  refine ⟨rfl, rfl, rfl, ?_, ?_, ?_, ?_⟩
  · intro raw e hdec
    simp only [make_encrypted_request, hdec]
  · intro raw plain e hdec hload
    simp only [make_encrypted_request, hdec, hload]
  · intro raw plain result st hdec hload hst hne
    simp only [make_encrypted_request, hdec, hload, hst, hne]
    rfl
  · intro outcome
    cases outcome with
    | timeout => exact Or.inr (Or.inl ⟨_, rfl⟩)
    | connectorError => exact Or.inr (Or.inl ⟨_, rfl⟩)
    | otherExc => exact Or.inr (Or.inr ⟨_, rfl⟩)
    | response raw =>
      simp only [make_encrypted_request]
      rcases hdec : decryptWithKey key raw with e | plain
      · exact Or.inr (Or.inr ⟨_, rfl⟩)
      · rcases hload : loads plain with e | result
        · exact Or.inr (Or.inr ⟨"Unknown error communicating with iT600 gateway",
            by simp only [hload]⟩)
        · rcases hst : pyGet result "status" with e | st
          · exact Or.inr (Or.inr ⟨"Unknown error communicating with iT600 gateway",
              by simp only [hload, hst]⟩)
          · by_cases hsucc : pyEq st (.jstr "success") = true
            · exact Or.inl ⟨result,
                by simp only [hload, hst, hsucc, eq_self_iff_true, if_true]⟩
            · refine Or.inr (Or.inr ⟨"Gateway rejected " ++ command, ?_⟩)
              rw [Bool.not_eq_true] at hsucc
              simp only [hload, hst, hsucc, Bool.false_eq_true, if_false]

/-- C8 witness: a one-byte body fails decryption and yields CommandError, and
a well-encrypted body whose document lacks status success yields the
gateway-rejected CommandError. -/
theorem c8_transport_error_taxonomy_witness :
    decryptWithKey c8key [(0 : Byte)] = .error .valueError ∧
    make_encrypted_request c8key c8loads "read" (.response [(0 : Byte)]) =
      .error (.command "Unknown error communicating with iT600 gateway") ∧
    make_encrypted_request c8key c8loads "read" (.response (encryptWithKey c8key [])) =
      .error (.command ("Gateway rejected " ++ "read")) :=
  ⟨rfl,
   (c8_transport_error_taxonomy c8key c8loads "read").2.2.2.1 [(0 : Byte)] .valueError rfl,
   (c8_transport_error_taxonomy c8key c8loads "read").2.2.2.2.2.1
     (encryptWithKey c8key []) [] (.jobj [("status", .jstr "fail")]) (.jstr "fail")
     (decryptWithKey_encryptWithKey c8key []) rfl rfl rfl⟩

/-- C5 counterexample: the claim that every emitted cover record has a
position in [0,100] is false; the decoder passes the raw level through, and a
row reporting 150 decodes successfully with position 150. -/
theorem c5_cover_fields_counterexample :
    ¬ (∀ (ds : JValue) (uid : String) (dev : CoverDevice),
        coverRowTry ds uid = .ok (some dev) →
        ∃ n : ℚ, dev.current_cover_position = .jnum n ∧ 0 ≤ n ∧ n ≤ 100) := by
  intro hall
  obtain ⟨n, hn, h0, h100⟩ := hall c5row "cv1" c5dev (by with_unfolding_all rfl)
  rw [show c5dev.current_cover_position = JValue.jnum 150 from rfl] at hn
  injection hn with hq
  rw [← hq] at h100
  norm_num at h100

/-- C5 (amended): the emitted position is the raw current level unclamped;
is_closed is the equality test of that level against 0; when a target parses
from the first two hex characters of the move-to-level field, is_opening is
current < target and is_closing is current > target, and both are unknown
when no target is present. -/
theorem c5_cover_fields (ds : JValue) (uid : String) (dev : CoverDevice)
    (levelS currentPos moveRaw : JValue)
    (hok : coverRowTry ds uid = .ok (some dev))
    (hls : pyGetD ds "sLevelS" (.jobj []) = .ok levelS)
    (hcp : pyGet levelS "CurrentLevel" = .ok currentPos)
    (hmv : pyGet levelS "MoveToLevel_f" = .ok moveRaw) :
    dev.current_cover_position = currentPos ∧
    dev.is_closed = pyEq currentPos (.jnum 0) ∧
    (∀ n : ℚ, currentPos = .jnum n → (dev.is_closed = true ↔ n = 0)) ∧
    (∀ sp, coverSetPosition moveRaw = .ok sp →
      ((sp = none → dev.is_opening = none ∧ dev.is_closing = none) ∧
       (∀ t b, sp = some t → pyLt currentPos (.jnum (t : ℚ)) = .ok b →
         dev.is_opening = some b) ∧
       (∀ t b, sp = some t → pyLt (.jnum (t : ℚ)) currentPos = .ok b →
         dev.is_closing = some b))) := by
  rw [coverRowTry] at hok
  obtain ⟨buttonS, h1, hok⟩ := exbind_ok _ _ _ hok
  obtain ⟨mode, h2, hok⟩ := exbind_ok _ _ _ hok
  split at hok
  · simp [pure, Except.pure] at hok
  · obtain ⟨model, h3, hok⟩ := exbind_ok _ _ _ hok
    obtain ⟨levelS2, h4, hok⟩ := exbind_ok _ _ _ hok
    rw [hls] at h4
    injection h4 with h4e
    subst h4e
    obtain ⟨currentPos2, h5, hok⟩ := exbind_ok _ _ _ hok
    rw [hcp] at h5
    injection h5 with h5e
    subst h5e
    obtain ⟨levelS3, h6, hok⟩ := exbind_ok _ _ _ hok
    rw [hls] at h6
    injection h6 with h6e
    subst h6e
    obtain ⟨moveRaw2, h7, hok⟩ := exbind_ok _ _ _ hok
    rw [hmv] at h7
    injection h7 with h7e
    subst h7e
    obtain ⟨sp0, h8, hok⟩ := exbind_ok _ _ _ hok
    obtain ⟨avail, h9, hok⟩ := exbind_ok _ _ _ hok
    obtain ⟨nm, h10, hok⟩ := exbind_ok _ _ _ hok
    obtain ⟨opening, h11, hok⟩ := exbind_ok _ _ _ hok
    obtain ⟨closing, h12, hok⟩ := exbind_ok _ _ _ hok
    obtain ⟨manu, h13, hok⟩ := exbind_ok _ _ _ hok
    obtain ⟨sw, h14, hok⟩ := exbind_ok _ _ _ hok
    obtain ⟨dataV, h15, hok⟩ := exbind_ok _ _ _ hok
    simp only [pure, Except.pure, Except.ok.injEq, Option.some.injEq] at hok
    subst hok
    refine ⟨rfl, rfl, ?_, ?_⟩
    · intro n hn
      subst hn
      simp only [pyEq]
      constructor
      · intro h
        exact of_decide_eq_true h
      · intro h
        exact decide_eq_true h
    · intro sp hsp
      rw [h8] at hsp
      injection hsp with hspe
      subst hspe
      refine ⟨?_, ?_, ?_⟩
      · intro hnone
        subst hnone
        rw [coverOpening] at h11
        rw [coverClosing] at h12
        simp only [pure, Except.pure, Except.ok.injEq] at h11 h12
        exact ⟨h11.symm, h12.symm⟩
      · intro t b ht hlt
        subst ht
        rw [coverOpening] at h11
        obtain ⟨b2, hb2, h11⟩ := exbind_ok _ _ _ h11
        rw [hlt] at hb2
        injection hb2 with hb2e
        subst hb2e
        simp only [pure, Except.pure, Except.ok.injEq] at h11
        rw [← h11]
      · intro t b ht hlt
        subst ht
        rw [coverClosing] at h12
        obtain ⟨b2, hb2, h12⟩ := exbind_ok _ _ _ h12
        rw [hlt] at hb2
        injection hb2 with hb2e
        subst hb2e
        simp only [pure, Except.pure, Except.ok.injEq] at h12
        rw [← h12]

/-- C5 witness: the moving cover row decodes with position 75 passed through,
is_closed false, is_opening true and is_closing false against target 80. -/
theorem c5_cover_fields_witness :
    coverRowTry c5wrow "cv2" = .ok (some c5wdev) ∧
    c5wdev.current_cover_position = .jnum 75 ∧
    c5wdev.is_closed = pyEq (.jnum 75) (.jnum 0) ∧
    c5wdev.is_opening = some true ∧
    c5wdev.is_closing = some false := by
  have h := c5_cover_fields c5wrow "cv2" c5wdev
    (.jobj [("CurrentLevel", .jnum 75), ("MoveToLevel_f", .jstr "50ff")])
    (.jnum 75) (.jstr "50ff")
    (by with_unfolding_all rfl) rfl rfl rfl
  refine ⟨by with_unfolding_all rfl, h.1, h.2.1, ?_, ?_⟩
  · exact (h.2.2.2 (some 80) (by with_unfolding_all rfl)).2.1 80 true rfl
      (by with_unfolding_all rfl)
  · exact (h.2.2.2 (some 80) (by with_unfolding_all rfl)).2.2 80 false rfl
      (by with_unfolding_all rfl)

/-- On a safe row the pre-boundary uid steps cannot raise. -/
theorem switchRowSafe_uid (ds : JValue) (hsafe : switchRowSafe ds = true)
    (e : PyErr) (h : switchRowUid ds = .error e) : False := by
  rcases ds with _ | b | q | s | xs | fs
  case jobj =>
    rcases hd : jfind fs "data" with _ | dv
    · simp [switchRowUid, uidOf, pyGetD, pyGet, jfind, hd, Bind.bind, Except.bind,
        pure, Except.pure] at h
    · rcases dv with _ | b | q | s | xs | dfs
      case jobj =>
        rcases hu : jfind dfs "UniID" with _ | uv
        · simp [switchRowUid, uidOf, pyGetD, pyGet, hd, hu, Bind.bind, Except.bind,
            pure, Except.pure] at h
        · rcases uv with _ | b | q | s | xs | ufs
          case jnull =>
            simp [switchRowUid, uidOf, pyGetD, pyGet, hd, hu, Bind.bind, Except.bind,
              pure, Except.pure] at h
          all_goals (
            have hep : (jfind dfs "Endpoint").isSome = true := by
              simpa [switchRowSafe, hd, hu] using hsafe
            rcases he : jfind dfs "Endpoint" with _ | ep
            · rw [he] at hep
              simp at hep
            · simp only [switchRowUid, uidOf, pyGetD, pyGet, pyItem, hd, hu, he,
                Bind.bind, Except.bind, pure, Except.pure, Option.getD_some] at h
              exact Except.noConfusion h)
      all_goals exact absurd hsafe (by simp [switchRowSafe, hd])
  all_goals exact absurd hsafe (by simp [switchRowSafe])

/-- C6 counterexample: not every malformed row is caught at the row level;
the endpoint-suffix lookup runs before the try block, so a row whose data
block has UniID but no Endpoint raises KeyError and aborts the whole switch
pass. -/
theorem c6_switch_row_boundary_counterexample :
    ¬ (∀ (rows : List JValue) (sc : SwitchScratch),
        ∃ sc2, refreshSwitchRows rows sc = .ok sc2) := by
  intro hall
  obtain ⟨sc2, h⟩ := hall [c6bad] ⟨[], []⟩
  rw [show refreshSwitchRows [c6bad] ⟨[], []⟩ = .error .keyError from rfl] at h
  exact Except.noConfusion h

/-- C6 (amended): for rows whose data block lacks UniID or carries an
Endpoint alongside it, the pre-boundary steps cannot raise, every in-row
failure is confined to its row, and the pass always completes with the fold
of the per-row updates, which becomes the new category map. -/
theorem c6_switch_row_boundary (rows : List JValue) (sc : SwitchScratch)
    (hsafe : ∀ r ∈ rows, switchRowSafe r = true) :
    refreshSwitchRows rows sc = .ok (switchFold rows sc) := by
  induction rows generalizing sc with
  | nil => rfl
  | cons ds rest ih =>
    have hds := hsafe ds (List.mem_cons_self ds rest)
    have hrest : ∀ r ∈ rest, switchRowSafe r = true :=
      fun r hr => hsafe r (List.mem_cons_of_mem ds hr)
    have hfold : switchFold (ds :: rest) sc = switchFold rest (switchRowApply ds sc) := rfl
    rw [hfold]
    rcases hru : switchRowUid ds with e | o
    · exact (switchRowSafe_uid ds hds e hru).elim
    · cases o with
      | none =>
        have h1 : refreshSwitchRows (ds :: rest) sc = refreshSwitchRows rest sc := by
          simp [refreshSwitchRows, hru]
        have happ : switchRowApply ds sc = sc := by
          simp [switchRowApply, hru]
        rw [h1, happ]
        exact ih sc hrest
      | some uid =>
        have h1 : refreshSwitchRows (ds :: rest) sc =
            refreshSwitchRows rest (switchRowTry ds uid sc).1 := by
          simp [refreshSwitchRows, hru]
        have happ : switchRowApply ds sc = (switchRowTry ds uid sc).1 := by
          simp [switchRowApply, hru]
        rw [h1, happ]
        exact ih (switchRowTry ds uid sc).1 hrest

/-- C6 witness: a pass over a good row and a skipped row completes and
installs the fold, which contains the decoded device. -/
theorem c6_switch_row_boundary_witness :
    refreshSwitchRows [c6good, c6skip] ⟨[], []⟩ =
      .ok (switchFold [c6good, c6skip] ⟨[], []⟩) ∧
    getEntry (switchFold [c6good, c6skip] (⟨[], []⟩ : SwitchScratch)).sw "s1_1" =
      some c6dev :=
  ⟨c6_switch_row_boundary [c6good, c6skip] ⟨[], []⟩
    (by intro r hr
        simp only [List.mem_cons, List.not_mem_nil, or_false] at hr
        rcases hr with rfl | rfl <;> rfl),
   rfl⟩

/-- C7 counterexample: the claim is false of the program; both low-battery
fields are read unconditionally after the main record is inserted, so a row
carrying the alarm-zone flag whose power block is not a dict yields a main
record but no low-battery child (the read of the power block raises and the
row boundary swallows it). -/
theorem c7_low_battery_precedence_counterexample :
    ¬ (∀ (ds : JValue) (uid : String) (sc : List (String × BinarySensorDevice))
        (iaszs bv : JValue),
        (getEntry (binarySensorRowTry ds uid sc).1 uid).isSome = true →
        pyGetD ds "sIASZS" (.jobj []) = .ok iaszs →
        pyGet iaszs "ErrorIASZSLowBattery" = .ok bv →
        bv ≠ .jnull →
        (getEntry (binarySensorRowTry ds uid sc).1 (uid ++ "_low_battery")).isSome = true) := by
  intro hall
  have h := hall c7badrow "b1" []
    (.jobj [("ErrorIASZSAlarmed1", .jnum 1), ("ErrorIASZSLowBattery", .jnum 1)]) (.jnum 1)
    (by with_unfolding_all rfl) rfl rfl (fun h => JValue.noConfusion h)
  rw [show (getEntry (binarySensorRowTry c7badrow "b1" []).1
      ("b1" ++ "_low_battery")).isSome = false from by with_unfolding_all rfl] at h
  exact Bool.noConfusion h

/-- C7 (amended): both low-battery fields are read unconditionally after the
main record is inserted; when both reads succeed the child's state comes from
the alarm-zone flag when non-null, else from the power-block flag when
non-null, else no child; when the second read fails the main record stays in
the map and only the child is suppressed. -/
theorem c7_low_battery_precedence (ds : JValue) (uid : String)
    (sc : List (String × BinarySensorDevice))
    (model isOnRaw : JValue) (avail : Bool) (nm : String) (manu sw dataV : JValue)
    (iaszs bv : JValue) (dev : BinarySensorDevice)
    (hm : modelIdOf ds = .ok model)
    (hion : binarySensorIsOnRaw ds model = .ok isOnRaw)
    (hnn : isOnRaw ≠ .jnull)
    (hsb : pyEq model (.jstr "SB600") = false)
    (hav : availOf ds = .ok avail)
    (hnm : deviceName ds "Unknown" = .ok nm)
    (hmanu : manufacturerOf ds = .ok manu)
    (hsw : swVersionOf ds = .ok sw)
    (hdata : pyItem ds "data" = .ok dataV)
    (hia : pyGetD ds "sIASZS" (.jobj []) = .ok iaszs)
    (hbv : pyGet iaszs "ErrorIASZSLowBattery" = .ok bv)
    (hdev : dev =
      { available := avail
        name := nm
        unique_id := uid
        is_on := pyEq isOnRaw (.jnum 1)
        device_class := binarySensorDeviceClass model
        data := dataV
        manufacturer := manu
        model := model
        sw_version := sw }) :
    (∀ powerS pv, pyGetD ds "sPowerS" (.jobj []) = .ok powerS →
      pyGet powerS "ErrorPowerSLowBattery" = .ok pv →
      bv ≠ .jnull →
      binarySensorRowTry ds uid sc =
        (setEntry (setEntry sc uid dev) (uid ++ "_low_battery")
          (binarySensorChild dev uid bv dataV), none)) ∧
    (∀ powerS pv, pyGetD ds "sPowerS" (.jobj []) = .ok powerS →
      pyGet powerS "ErrorPowerSLowBattery" = .ok pv →
      bv = .jnull → pv ≠ .jnull →
      binarySensorRowTry ds uid sc =
        (setEntry (setEntry sc uid dev) (uid ++ "_low_battery")
          (binarySensorChild dev uid pv dataV), none)) ∧
    (∀ powerS pv, pyGetD ds "sPowerS" (.jobj []) = .ok powerS →
      pyGet powerS "ErrorPowerSLowBattery" = .ok pv →
      bv = .jnull → pv = .jnull →
      binarySensorRowTry ds uid sc = (setEntry sc uid dev, none)) ∧
    (∀ e, (do
        let p ← pyGetD ds "sPowerS" (.jobj [])
        pyGet p "ErrorPowerSLowBattery" : Except PyErr JValue) = .error e →
      binarySensorRowTry ds uid sc = (setEntry sc uid dev, some e)) := by
  subst hdev
  refine ⟨?_, ?_, ?_, ?_⟩
  · intro powerS pv hpw hpv hne
    cases isOnRaw
    · exact absurd rfl hnn
    all_goals
      cases bv
    all_goals
      try exact absurd rfl hne
    all_goals
      simp only [binarySensorRowTry, hm, hion, hsb, hav, hnm, hmanu, hsw, hdata,
        hia, hbv, hpw, hpv, exok_bind, Bind.bind, Except.bind, pure, Except.pure,
        Bool.false_eq_true, if_false]
  · intro powerS pv hpw hpv hbe hne
    subst hbe
    cases isOnRaw
    · exact absurd rfl hnn
    all_goals
      cases pv
    all_goals
      try exact absurd rfl hne
    all_goals
      simp only [binarySensorRowTry, hm, hion, hsb, hav, hnm, hmanu, hsw, hdata,
        hia, hbv, hpw, hpv, exok_bind, Bind.bind, Except.bind, pure, Except.pure,
        Bool.false_eq_true, if_false]
  · intro powerS pv hpw hpv hbe hpe
    subst hbe
    subst hpe
    cases isOnRaw
    · exact absurd rfl hnn
    all_goals
      simp only [binarySensorRowTry, hm, hion, hsb, hav, hnm, hmanu, hsw, hdata,
        hia, hbv, hpw, hpv, exok_bind, Bind.bind, Except.bind, pure, Except.pure,
        Bool.false_eq_true, if_false]
  · intro e herr
    simp only [Bind.bind, Except.bind] at herr
    cases isOnRaw
    · exact absurd rfl hnn
    all_goals
      simp only [binarySensorRowTry, hm, hion, hsb, hav, hnm, hmanu, hsw, hdata,
        hia, hbv, exok_bind, Bind.bind, Except.bind, pure, Except.pure,
        Bool.false_eq_true, if_false, herr]

/-- C7 witness: the concrete row carries the alarm-zone flag, the power read
succeeds with null, and the child is inserted from the alarm-zone flag. -/
theorem c7_low_battery_precedence_witness :
    binarySensorRowTry c7row "b1" [] =
      (setEntry (setEntry [] "b1" c7dev) ("b1" ++ "_low_battery")
        (binarySensorChild c7dev "b1" (.jnum 1) (.jobj [("UniID", .jstr "b1")])), none) :=
  (c7_low_battery_precedence c7row "b1" [] .jnull (.jnum 1) true "Unknown"
      (.jstr "SALUS") .jnull (.jobj [("UniID", .jstr "b1")])
      (.jobj [("ErrorIASZSAlarmed1", .jnum 1), ("ErrorIASZSLowBattery", .jnum 1)]) (.jnum 1)
      c7dev rfl rfl (fun h => JValue.noConfusion h) rfl
      (by with_unfolding_all rfl) (by with_unfolding_all rfl) rfl rfl rfl rfl rfl
      (by with_unfolding_all rfl)).1
    (.jobj []) .jnull rfl rfl (fun h => JValue.noConfusion h)
